import Mathlib

/-!
Verification development for the AquaNova membrane-simulation core.

The Python source computes with IEEE floats; this development embeds the
same arithmetic over `ℚ`.  All inequalities settled below hold with margins
many orders of magnitude above float rounding noise.  Transcendental library
calls (`math.exp`, `10 ** x`) cannot be embedded exactly in `ℚ`; every
definition that the source computes through such a call takes the call as an
explicit oracle argument (`expO`, `pow10O`), and every theorem whose truth
could depend on the oracle's values quantifies over the oracle.  `expModel`
below is a fixed executable stand-in used only to instantiate witnesses on
paths where the oracle's value is irrelevant.
-/

/-- Python `max(lo, min(x, hi))` as used by the `_clamp` helpers. -/
def clampQ (x lo hi : ℚ) : ℚ := max lo (min x hi)

/-- Python `int(x)` truncation toward zero on a rational. -/
def truncQ (q : ℚ) : ℤ := if 0 ≤ q then ⌊q⌋ else -⌊-q⌋

/-- Models `_f(v, default)`: substitute the default when the value is absent. -/
def fDef (v : Option ℚ) (d : ℚ) : ℚ := v.getD d

/-- Python truthiness of an optional float: `a or d` (`None` and `0.0` are falsy). -/
def pyOrQ (a : Option ℚ) (d : ℚ) : ℚ :=
  match a with
  | some v => if v = 0 then d else v
  | none => d

/-- Python `round(x, n)` (round half to even at the n-th decimal). -/
def pyRound (n : ℕ) (q : ℚ) : ℚ :=
  let m : ℚ := (10 : ℚ) ^ n
  let s := q * m
  let f : ℤ := ⌊s⌋
  let r := s - (f : ℚ)
  let k : ℤ :=
    if r < 1/2 then f
    else if 1/2 < r then f + 1
    else if f % 2 = 0 then f else f + 1
  (k : ℚ) / m

/-- Fixed executable rational stand-in for `math.exp` (see the module docstring). -/
def expModel (x : ℚ) : ℚ := 1 + x + x^2/2 + x^3/6 + x^4/24

/-- `_osmotic_pressure_bar` of `modules/ro.py`: simple van't Hoff-like form. -/
def osmoQ (conc_mgL temp_c : ℚ) : ℚ :=
  (max 0 conc_mgL / 1000) * (75/100) * (max 1 (temp_c + (27315/100)) / (29815/100))

-- =========================================================================
-- HRRO Excel(CCRO) baseline block, `compute_excel` of modules/hrro.py
-- =========================================================================

/-- Inputs of the HRRO deterministic baseline block (`ExcelInputs`). -/
structure ExcelInputs where
  q_raw_m3h : ℚ
  ccro_recovery_pct : ℚ
  pf_feed_ratio_pct : ℚ
  pf_recovery_pct : ℚ
  cc_recycle_m3h_per_pv : ℚ
  vessel_count : ℤ
  elements_per_vessel : ℤ
  area_m2_per_element : ℚ
deriving DecidableEq

/-- Outputs of the HRRO deterministic baseline block (`ExcelResults`). -/
structure ExcelResults where
  total_elements : ℤ
  total_area_m2 : ℚ
  ccro_qp_m3h : ℚ
  ccro_qc_m3h : ℚ
  ccro_flux_lmh : ℚ
  pf_feed_m3h : ℚ
  pf_qp_m3h : ℚ
  pf_qc_m3h : ℚ
  pf_flux_lmh : ℚ
  cc_feed_m3h : ℚ
  cc_blend_feed_m3h_per_pv : ℚ
  cc_qp_m3h_per_pv : ℚ
  cc_qc_m3h_per_pv : ℚ
  cc_recovery_pct : ℚ
  cc_flux_lmh : ℚ
deriving DecidableEq

/-- `compute_excel` (hrro.py lines 94-153), ported field by field. -/
def computeExcel (inp : ExcelInputs) : ExcelResults :=
  let vessel_count : ℤ := max 1 inp.vessel_count
  let pv_elems : ℤ := max 1 inp.elements_per_vessel
  let area_per_el : ℚ := max (1/10^9) inp.area_m2_per_element
  let total_elements : ℤ := vessel_count * pv_elems
  let total_area_m2 : ℚ := (total_elements : ℚ) * area_per_el
  let q : ℚ := max (1/10^9) inp.q_raw_m3h
  let r : ℚ := clampQ inp.ccro_recovery_pct 0 100
  let ccro_qp := q * r / 100
  let ccro_qc := q - ccro_qp
  let ccro_flux := ccro_qp * 1000 / total_area_m2
  let K5 := inp.pf_feed_ratio_pct
  let T7 := if 101 ≤ K5 then (q * (r / 100)) / 10 else 0
  let V7 := (K5 - 100) / 10
  let V8 := T7 * V7
  let V9 := q + V8
  let V10 := if 0 < K5 then V9 / (K5 / 100) else 0
  let pf_feed := V9
  let pf_rec := clampQ inp.pf_recovery_pct 0 100
  let pf_qp := pf_feed * pf_rec / 100
  let pf_qc := pf_feed - pf_qp
  let pf_flux := pf_qp * 1000 / total_area_m2
  let O5 : ℚ := max 0 inp.cc_recycle_m3h_per_pv
  let O7 := V10
  let O8 := O5 + O7
  let O9 := O7
  let O10 := O5
  let O6 := if 0 < O8 then (O9 / O8) * 100 else 0
  let O11 := O9 * 1000 / total_area_m2
  ⟨total_elements, total_area_m2, ccro_qp, ccro_qc, ccro_flux,
   pf_feed, pf_qp, pf_qc, pf_flux, V10, O8, O9, O10, O6, O11⟩

-- =========================================================================
-- HRRO guideline table and violation checker (hrro.py 159-575)
-- =========================================================================

/-- One guideline limit set (an entry of `GUIDELINES[profile][inch]`). -/
structure GLimits where
  sdi : String
  avg_flux_range_lmh : Option (ℚ × ℚ)
  lead_flux_max_lmh : Option ℚ
  conc_flow_min_m3h_per_vessel : Option ℚ
  feed_flow_max_m3h_per_vessel : Option ℚ
  dp_max_bar : Option ℚ
  element_recovery_max_pct : Option ℚ
  beta_max : Option ℚ
  flux_decline_ratio_max_pct : Option ℚ
deriving DecidableEq

/-- The empty limit dict (`g = g or {}` with every lookup yielding `None`). -/
def emptyGL : GLimits := ⟨"", none, none, none, none, none, none, none, none⟩

/-- Dict lookup `m.get(k)` on an association list. -/
def dictGet {α β : Type} [BEq α] (m : List (α × β)) (k : α) : Option β :=
  match m with
  | [] => none
  | kv :: rest => if kv.1 == k then some kv.2 else dictGet rest k

/-- The "municipal Supply" 8-inch limit set (the default-profile entry). -/
def municipal8 : GLimits :=
  ⟨"<5", some (20, 26), some 31, some 3.6, some 15, some 2, some 15, some 1.2, some 13⟩

/-- The "municipal Supply" 4-inch limit set. -/
def municipal4 : GLimits :=
  ⟨"<5", none, none, some 0.7, some 2.8, none, none, none, none⟩

/-- The static `GUIDELINES` table of hrro.py, ported entry by entry. -/
def GUIDELINES : List (String × List (ℤ × GLimits)) :=
  [ ("municipal Supply", [ (8, municipal8), (4, municipal4) ]),
    ("Brackish Wells",
      [ (8, ⟨"<3", some (23, 29), some 34, some 3, some 16, some 3, some 20, some 1.2, some 10⟩),
        (4, ⟨"<3", none, none, some 0.6, some 3.2, none, none, none, none⟩) ]),
    ("Surface Water media fillteration",
      [ (8, ⟨"<5", some (20, 26), some 31, some 3.6, some 15, some 2, some 15, some 1.2, some 13⟩),
        (4, ⟨"<5", none, none, some 0.7, some 2.6, none, none, none, none⟩) ]),
    ("Surface Water MF/UF Filteration",
      [ (8, ⟨"<3", some (23, 29), some 34, some 3, some 16, some 3, some 20, some 1.2, some 10⟩),
        (4, ⟨"<3", none, none, some 0.6, some 3.2, none, none, none, none⟩) ]),
    ("Secondary Waste media Filteration",
      [ (8, ⟨"<5", some (14, 20), some 24, some 4.1, some 14, some 2, some 12, some 1.2, some 18⟩),
        (4, ⟨"<5", none, none, some 0.8, some 2.6, none, none, none, none⟩) ]),
    ("Secondary Waste MF/UF Filteration",
      [ (8, ⟨"<3", some (17, 23), some 28, some 3.6, some 14, some 2, some 17, some 1.2, some 15⟩),
        (4, ⟨"<3", none, none, some 0.7, some 2.8, none, none, none, none⟩) ]),
    ("Seawater Intake media Filteration",
      [ (8, ⟨"<5", some (11, 17), some 30, some 3.6, some 14, some 2, some 13, some 1.2, some 8⟩),
        (4, ⟨"<5", none, none, some 0.7, some 2.8, none, none, none, none⟩) ]),
    ("SeaWater Intake MF/UF filtertation",
      [ (8, ⟨"<3", some (14, 20), some 35, some 3.4, some 16, some 3, some 15, some 1.2, some 6⟩),
        (4, ⟨"<3", none, none, some 0.7, some 3, none, none, none, none⟩) ]),
    ("Seawater Beach Wells",
      [ (8, ⟨"<3", some (14, 20), some 35, some 3.4, some 16, some 3, some 15, some 1.2, some 6⟩),
        (4, ⟨"<3", none, none, none, some 3, none, none, none, none⟩) ]),
    ("RO Pemeate",
      [ (8, ⟨"<1", some (32, 42), some 48, some 2.4, some 17, some 3, some 30, some 1.3, some 6⟩),
        (4, ⟨"<1", none, none, some 0.5, some 3.6, none, none, none, none⟩) ]) ]

/-- The `checks` dict handed to `build_guideline_violations`. -/
structure GLChecks where
  avg_flux_lmh : Option ℚ
  lead_flux_lmh : Option ℚ
  conc_flow_m3h_per_vessel : Option ℚ
  feed_flow_m3h_per_vessel : Option ℚ
  dp_bar_per_vessel : Option ℚ
  element_recovery_pct : Option ℚ
  beta_max : Option ℚ
  flux_decline_ratio_pct : Option ℚ
deriving DecidableEq

/-- A violation record; the presentation-only `message`/`limit` payload of the
source record is not modelled, the machine-readable key/value/unit are. -/
structure GLViolation where
  key : String
  value : ℚ
  unit : String
deriving DecidableEq

/-- The `guideline_used` summary returned next to the violation list. -/
structure GLUsed where
  profile : String
  element_inch : ℤ
  limits : GLimits
deriving DecidableEq

/-- `build_guideline_violations` (hrro.py 456-575): profile fallback to
"municipal Supply", then each limit check in source order. -/
def buildGuidelineViolations (profile : String) (inch : ℤ) (checks : GLChecks) :
    GLUsed × List GLViolation :=
  let g0 : Option GLimits := (dictGet GUIDELINES profile).getD [] |> (fun m => dictGet m inch)
  let profile2 : String := if g0.isSome then profile else "municipal Supply"
  let g1 : Option GLimits :=
    match g0 with
    | some g => some g
    | none => (dictGet GUIDELINES "municipal Supply").getD [] |> (fun m => dictGet m inch)
  let g : GLimits := g1.getD emptyGL
  let vAvg : List GLViolation :=
    match g.avg_flux_range_lmh, checks.avg_flux_lmh with
    | some lohi, some v =>
        if ¬ (lohi.1 ≤ v ∧ v ≤ lohi.2) then [⟨"avg_flux_range", v, "LMH"⟩] else []
    | _, _ => []
  let vLead : List GLViolation :=
    match g.lead_flux_max_lmh, checks.lead_flux_lmh with
    | some m, some v => if m + 1/10^9 < v then [⟨"lead_flux_max", v, "LMH"⟩] else []
    | _, _ => []
  let vConc : List GLViolation :=
    match g.conc_flow_min_m3h_per_vessel, checks.conc_flow_m3h_per_vessel with
    | some m, some v => if v + 1/10^12 < m then [⟨"conc_flow_min", v, "m3/h"⟩] else []
    | _, _ => []
  let vFeed : List GLViolation :=
    match g.feed_flow_max_m3h_per_vessel, checks.feed_flow_m3h_per_vessel with
    | some m, some v => if m + 1/10^9 < v then [⟨"feed_flow_max", v, "m3/h"⟩] else []
    | _, _ => []
  let vDp : List GLViolation :=
    match g.dp_max_bar, checks.dp_bar_per_vessel with
    | some m, some v => if m + 1/10^9 < v then [⟨"dp_max", v, "bar"⟩] else []
    | _, _ => []
  let vEr : List GLViolation :=
    match g.element_recovery_max_pct, checks.element_recovery_pct with
    | some m, some v => if m + 1/10^9 < v then [⟨"element_recovery_max", v, "%"⟩] else []
    | _, _ => []
  let vBeta : List GLViolation :=
    match g.beta_max, checks.beta_max with
    | some m, some v => if m + 1/10^9 < v then [⟨"beta_max", v, "-"⟩] else []
    | _, _ => []
  let vFdr : List GLViolation :=
    match g.flux_decline_ratio_max_pct, checks.flux_decline_ratio_pct with
    | some m, some v => if m + 1/10^9 < v then [⟨"flux_decline_ratio_max", v, "%"⟩] else []
    | _, _ => []
  (⟨profile2, inch, g⟩, vAvg ++ vLead ++ vConc ++ vFeed ++ vDp ++ vEr ++ vBeta ++ vFdr)

-- =========================================================================
-- Orchestrator mass/salt balance check (engine.py 402-421)
-- =========================================================================

/-- Unrounded flow-closure error percentage of `_calc_mass_balance`. -/
def flowErrPctQ (qf qp qb : ℚ) : ℚ :=
  if 0 < qf then (qf - (qp + qb)) / qf * 100 else 0

/-- Unrounded salt-closure error percentage of `_calc_mass_balance`. -/
def saltErrPctQ (qf cf qp cp qb cb : ℚ) : ℚ :=
  if 0 < qf * cf then (qf * cf - (qp * cp + qb * cb)) / (qf * cf) * 100 else 0

/-- The `MassBalanceOut` block produced by the orchestrator. -/
structure MassBalanceOut where
  flow_error_m3h : ℚ
  flow_error_pct : ℚ
  salt_error_kgh : ℚ
  salt_error_pct : ℚ
  system_rejection_pct : ℚ
  is_balanced : Bool
deriving DecidableEq

/-- `SimulationEngine._calc_mass_balance` (engine.py 402-421). -/
def calcMassBalance (qf cf qp cp qb cb : ℚ) : MassBalanceOut :=
  let flow_err := qf - (qp + qb)
  let salt_err_g := qf * cf - (qp * cp + qb * cb)
  let fep := flowErrPctQ qf qp qb
  let sep := saltErrPctQ qf cf qp cp qb cb
  let rej := if 0 < cf then (1 - cp / cf) * 100 else 0
  ⟨pyRound 4 flow_err, pyRound 2 fep, pyRound 4 (salt_err_g / 1000), pyRound 2 sep,
   pyRound 2 rej, decide (|fep| < 1 ∧ |sep| < 5)⟩

/-- The spec sentence as written ("not balanced when flow error > 1% or salt
error > 5%"), stated over the same unrounded error percentages. -/
def specNotBalanced (qf cf qp cp qb cb : ℚ) : Prop :=
  1 < |flowErrPctQ qf qp qb| ∨ 5 < |saltErrPctQ qf cf qp cp qb cb|

-- =========================================================================
-- Water chemistry engine (app/services/water_chemistry.py)
-- =========================================================================

def MW_NA : ℚ := 22.990
def MW_MG : ℚ := 24.305
def MW_AL : ℚ := 26.982
def MW_CL : ℚ := 35.453
def MW_K : ℚ := 39.098
def MW_CA : ℚ := 40.078
def MW_MN : ℚ := 54.938
def MW_FE : ℚ := 55.845
def MW_F : ℚ := 18.998
def MW_SR : ℚ := 87.62
def MW_BA : ℚ := 137.327
def MW_BR : ℚ := 79.904
def MW_SO4 : ℚ := 32.065 + 4 * 15.999
def MW_HCO3 : ℚ := 1.008 + 12.011 + 3 * 15.999
def MW_NO3 : ℚ := 14.007 + 3 * 15.999
def MW_CO3 : ℚ := 12.011 + 3 * 15.999
def MW_PO4 : ℚ := 30.974 + 4 * 15.999
def MW_NH4 : ℚ := 14.007 + 4 * 1.008

/-- `ChemistryProfile` of water_chemistry.py.  Ion fields are optional exactly
as in the dataclass (`Optional[float]`, default `0.0` supplied at call sites). -/
structure ChemistryProfile where
  tds_mgL : ℚ
  temperature_C : ℚ
  ph : ℚ
  na_mgL : Option ℚ := some 0
  k_mgL : Option ℚ := some 0
  ca_mgL : Option ℚ := some 0
  mg_mgL : Option ℚ := some 0
  nh4_mgL : Option ℚ := some 0
  sr_mgL : Option ℚ := some 0
  ba_mgL : Option ℚ := some 0
  fe_mgL : Option ℚ := some 0
  mn_mgL : Option ℚ := some 0
  al_mgL : Option ℚ := some 0
  cl_mgL : Option ℚ := some 0
  so4_mgL : Option ℚ := some 0
  hco3_mgL : Option ℚ := some 0
  no3_mgL : Option ℚ := some 0
  f_mgL : Option ℚ := some 0
  br_mgL : Option ℚ := some 0
  po4_mgL : Option ℚ := some 0
  co3_mgL : Option ℚ := some 0
  sio2_mgL : Option ℚ := some 0
  b_mgL : Option ℚ := some 0
  co2_mgL : Option ℚ := some 0
  alkalinity_mgL_as_CaCO3 : Option ℚ := none
  calcium_hardness_mgL_as_CaCO3 : Option ℚ := none
deriving DecidableEq

/-- `_get_meq`: charge equivalents of one ion (`None` and non-positive give 0). -/
def getMeq (mgL : Option ℚ) (mw valence : ℚ) : ℚ :=
  match mgL with
  | none => 0
  | some v => if v ≤ 0 then 0 else v / mw * valence

/-- Cation equivalents sum of `calculate_ion_balance`. -/
def cationsMeq (p : ChemistryProfile) : ℚ :=
  getMeq p.na_mgL MW_NA 1 + getMeq p.k_mgL MW_K 1 + getMeq p.ca_mgL MW_CA 2 +
  getMeq p.mg_mgL MW_MG 2 + getMeq p.nh4_mgL MW_NH4 1 + getMeq p.sr_mgL MW_SR 2 +
  getMeq p.ba_mgL MW_BA 2 + getMeq p.fe_mgL MW_FE 2 + getMeq p.mn_mgL MW_MN 2 +
  getMeq p.al_mgL MW_AL 3

/-- Anion equivalents sum of `calculate_ion_balance`. -/
def anionsMeq (p : ChemistryProfile) : ℚ :=
  getMeq p.cl_mgL MW_CL 1 + getMeq p.so4_mgL MW_SO4 2 + getMeq p.hco3_mgL MW_HCO3 1 +
  getMeq p.no3_mgL MW_NO3 1 + getMeq p.f_mgL MW_F 1 + getMeq p.br_mgL MW_BR 1 +
  getMeq p.po4_mgL MW_PO4 3 + getMeq p.co3_mgL MW_CO3 2

/-- `calculate_ion_balance`: cation meq, anion meq, and error percentage. -/
def calculateIonBalance (p : ChemistryProfile) : ℚ × ℚ × ℚ :=
  let c := cationsMeq p
  let a := anionsMeq p
  let total := c + a
  let err := if 0 < total then |c - a| / total * 100 else 0
  (c, a, err)

/-- `scale_profile_for_tds`: proportional rescale of every ion to a new TDS. -/
def scaleProfileForTds (base : ChemistryProfile) (new_tds : ℚ) : ChemistryProfile :=
  let base_tds := max base.tds_mgL (1/10^6)
  let factor := new_tds / base_tds
  { tds_mgL := new_tds
    temperature_C := base.temperature_C
    ph := base.ph
    na_mgL := base.na_mgL.map (· * factor)
    k_mgL := base.k_mgL.map (· * factor)
    ca_mgL := base.ca_mgL.map (· * factor)
    mg_mgL := base.mg_mgL.map (· * factor)
    nh4_mgL := base.nh4_mgL.map (· * factor)
    sr_mgL := base.sr_mgL.map (· * factor)
    ba_mgL := base.ba_mgL.map (· * factor)
    fe_mgL := base.fe_mgL.map (· * factor)
    mn_mgL := base.mn_mgL.map (· * factor)
    al_mgL := base.al_mgL.map (· * factor)
    cl_mgL := base.cl_mgL.map (· * factor)
    so4_mgL := base.so4_mgL.map (· * factor)
    hco3_mgL := base.hco3_mgL.map (· * factor)
    no3_mgL := base.no3_mgL.map (· * factor)
    f_mgL := base.f_mgL.map (· * factor)
    br_mgL := base.br_mgL.map (· * factor)
    po4_mgL := base.po4_mgL.map (· * factor)
    co3_mgL := base.co3_mgL.map (· * factor)
    sio2_mgL := base.sio2_mgL.map (· * factor)
    b_mgL := base.b_mgL.map (· * factor)
    co2_mgL := base.co2_mgL.map (· * factor)
    alkalinity_mgL_as_CaCO3 := base.alkalinity_mgL_as_CaCO3.map (· * factor)
    calcium_hardness_mgL_as_CaCO3 := base.calcium_hardness_mgL_as_CaCO3.map (· * factor) }

/-- `apply_balance_makeup` (water_chemistry.py 156-181): add Cl or Na to close
a charge imbalance, increasing TDS accordingly. -/
def applyBalanceMakeup (p : ChemistryProfile) : ChemistryProfile :=
  let c := cationsMeq p
  let a := anionsMeq p
  if |c - a| < 1/10^4 ∨ (c = 0 ∧ a = 0) then p
  else
    let np := scaleProfileForTds p p.tds_mgL
    if a < c then
      let diff := c - a
      let added := diff * MW_CL / 1
      { np with cl_mgL := some (np.cl_mgL.getD 0 + added), tds_mgL := np.tds_mgL + added }
    else
      let diff := a - c
      let added := diff * MW_NA / 1
      { np with na_mgL := some (np.na_mgL.getD 0 + added), tds_mgL := np.tds_mgL + added }

-- =========================================================================
-- Engine feed ion-balance adjustment (engine.py 233-251, 444-474)
-- =========================================================================

/-- The request ion block (`feed.ions`), fields the engine reads. -/
structure IonsIn where
  Na : Option ℚ := none
  K : Option ℚ := none
  Ca : Option ℚ := none
  Mg : Option ℚ := none
  NH4 : Option ℚ := none
  Ba : Option ℚ := none
  Sr : Option ℚ := none
  Fe : Option ℚ := none
  Mn : Option ℚ := none
  Al : Option ℚ := none
  Cl : Option ℚ := none
  SO4 : Option ℚ := none
  HCO3 : Option ℚ := none
  NO3 : Option ℚ := none
  F : Option ℚ := none
  SiO2 : Option ℚ := none
  B : Option ℚ := none
deriving DecidableEq

/-- The feed record of a simulation request.  Numeric fields are carried as
their `_f`-resolved values; `ions` is the optional ion composition block. -/
structure FeedInputM where
  flow_m3h : ℚ
  tds_mgL : ℚ
  temperature_C : ℚ
  ph : ℚ
  pressure_bar : ℚ
  ions : Option IonsIn := none
deriving DecidableEq

/-- `SimulationEngine._build_base_chem_profile`: profile from the feed; the
fields the engine does not copy keep the dataclass defaults. -/
def buildBaseChemProfile (feed : FeedInputM) : ChemistryProfile :=
  match feed.ions with
  | none => { tds_mgL := feed.tds_mgL, temperature_C := feed.temperature_C, ph := feed.ph }
  | some io =>
      { tds_mgL := feed.tds_mgL, temperature_C := feed.temperature_C, ph := feed.ph,
        na_mgL := io.Na, k_mgL := io.K, ca_mgL := io.Ca, mg_mgL := io.Mg,
        nh4_mgL := io.NH4, ba_mgL := io.Ba, sr_mgL := io.Sr, fe_mgL := io.Fe,
        mn_mgL := io.Mn, al_mgL := io.Al, cl_mgL := io.Cl, so4_mgL := io.SO4,
        hco3_mgL := io.HCO3, no3_mgL := io.NO3, f_mgL := io.F,
        sio2_mgL := io.SiO2, b_mgL := io.B }

/-- The in-place feed correction performed by `SimulationEngine.run`
(engine.py 235-244): when the request feed carries an ion block, the balanced
TDS, Na and Cl are written back into the request's feed.  This is the only
code in `run` that writes into the request; the returned record is the state
of `request.feed` after `run` returns. -/
def engineAdjustFeed (feed : FeedInputM) : FeedInputM :=
  match feed.ions with
  | none => feed
  | some io =>
      let balanced := applyBalanceMakeup (buildBaseChemProfile feed)
      { feed with tds_mgL := balanced.tds_mgL,
                  ions := some { io with Na := balanced.na_mgL, Cl := balanced.cl_mgL } }

-- =========================================================================
-- UF module (app/services/simulation/modules/uf.py)
-- =========================================================================

/-- The `uf_maintenance` sub-config; every field optional as in the schema. -/
structure UFMaint where
  filtration_duration_min : Option ℚ := none
  backwash_duration_sec : Option ℚ := none
  air_scour_duration_sec : Option ℚ := none
  forward_flush_duration_sec : Option ℚ := none
  backwash_flux_lmh : Option ℚ := none
  forward_flush_flow_m3h_per_mod : Option ℚ := none
deriving DecidableEq

/-- The UF stage config fields `UFModule.compute` reads. -/
structure UFConfigM where
  elements : Option ℚ := none
  membrane_area_m2_per_element : Option ℚ := none
  membrane_area_m2 : Option ℚ := none
  uf_maintenance : Option UFMaint := none
  design_flux_lmh : Option ℚ := none
  strainer_recovery_pct : Option ℚ := none
  uf_Lp_20_lmh_bar : Option ℚ := none
  flow_factor : Option ℚ := none
  permeate_back_pressure_bar : Option ℚ := none
  dp_module_bar : Option ℚ := none
  pump_eff : Option ℚ := none
deriving DecidableEq

/-- The feed-driven mass-balance flow block of `UFModule.compute`
(uf.py 32-109), every intermediate named as in the source. -/
structure UFFlows where
  raw_intake : ℚ
  uf_feed_in : ℚ
  strainer_loss : ℚ
  frac_filt : ℚ
  frac_bw : ℚ
  frac_ff : ℚ
  avg_ff_loss : ℚ
  avg_gross_prod : ℚ
  gross_flow : ℚ
  operating_flux : ℚ
  avg_bw_loss : ℚ
  total_backwash_loss : ℚ
  net_flow : ℚ
  average_flux : ℚ
  gross_recovery_pct : ℚ
  net_recovery_pct : ℚ
  total_waste : ℚ
  total_area : ℚ
deriving DecidableEq

/-- Flow computation of `UFModule.compute` (geometry, cycle fractions,
forward-flush and backwash losses, clamped gross/net production). -/
def ufFlows (cfg : UFConfigM) (feed : FeedInputM) : UFFlows :=
  let feed_flow := feed.flow_m3h
  let elements : ℤ := max 1 (truncQ (fDef cfg.elements 1))
  let area_per_el := fDef cfg.membrane_area_m2_per_element 77
  let total_area : ℚ :=
    match cfg.membrane_area_m2 with
    | some v => if v = 0 then max (1/10^9) ((elements : ℚ) * area_per_el) else v
    | none => max (1/10^9) ((elements : ℚ) * area_per_el)
  let t_filt_min := fDef (cfg.uf_maintenance.bind (fun m => m.filtration_duration_min)) 60
  let t_bw_sec := fDef (cfg.uf_maintenance.bind (fun m => m.backwash_duration_sec)) 60
  let t_air_sec := fDef (cfg.uf_maintenance.bind (fun m => m.air_scour_duration_sec)) 30
  let t_ff_sec := fDef (cfg.uf_maintenance.bind (fun m => m.forward_flush_duration_sec)) 30
  let bw_flux := fDef (cfg.uf_maintenance.bind (fun m => m.backwash_flux_lmh)) 100
  let ff_flow_mod := fDef (cfg.uf_maintenance.bind (fun m => m.forward_flush_flow_m3h_per_mod)) 2.83
  let strainer_rec := clampQ (fDef cfg.strainer_recovery_pct 99.5 / 100) 0.01 1
  let raw_intake := feed_flow
  let uf_feed_in := raw_intake * strainer_rec
  let strainer_loss := raw_intake - uf_feed_in
  let cycle_total_min := max (1/10^6) (t_filt_min + (t_bw_sec + t_air_sec + t_ff_sec) / 60)
  let frac_filt := t_filt_min / cycle_total_min
  let frac_bw := (t_bw_sec / 60) / cycle_total_min
  let frac_ff := (t_ff_sec / 60) / cycle_total_min
  let ff_rate := ff_flow_mod * (elements : ℚ)
  let avg_ff_loss := ff_rate * frac_ff
  let avg_gross_prod := max 0 (uf_feed_in - avg_ff_loss)
  let gross_flow := if 0 < frac_filt then avg_gross_prod / frac_filt else 0
  let operating_flux := if 0 < total_area then gross_flow * 1000 / total_area else 0
  let bw_rate := bw_flux * total_area / 1000
  let avg_bw_loss := bw_rate * frac_bw
  let total_backwash_loss := avg_bw_loss + avg_ff_loss
  let net_flow := max 0 (avg_gross_prod - avg_bw_loss)
  let average_flux := if 0 < total_area then net_flow * 1000 / total_area else 0
  let gross_recovery_pct := if 0 < uf_feed_in then avg_gross_prod / uf_feed_in * 100 else 0
  let net_recovery_pct := if 0 < raw_intake then net_flow / raw_intake * 100 else 0
  let total_waste := total_backwash_loss + strainer_loss
  ⟨raw_intake, uf_feed_in, strainer_loss, frac_filt, frac_bw, frac_ff,
   avg_ff_loss, avg_gross_prod, gross_flow, operating_flux, avg_bw_loss,
   total_backwash_loss, net_flow, average_flux, gross_recovery_pct,
   net_recovery_pct, total_waste, total_area⟩

/-- Unrounded stream block (`chemistry["streams"]`) of a stage metric. -/
structure MetricStreams where
  feed_flow : ℚ
  feed_tds : ℚ
  perm_flow : ℚ
  perm_tds : ℚ
  conc_flow : ℚ
  conc_tds : ℚ
deriving DecidableEq

/-- The `StageMetric` fields `UFModule.compute` fills (rounded as in source),
plus the unrounded `chemistry["streams"]` block. -/
structure UfMetric where
  design_flux_lmh : ℚ
  instantaneous_flux_lmh : ℚ
  average_flux_lmh : ℚ
  flux_lmh : ℚ
  gross_flow_m3h : ℚ
  net_flow_m3h : ℚ
  backwash_loss_m3h : ℚ
  recovery_pct : ℚ
  net_recovery_pct : ℚ
  tmp_bar : ℚ
  p_in_bar : ℚ
  p_out_bar : ℚ
  sec_kwhm3 : ℚ
  Qf : ℚ
  Qp : ℚ
  Qc : ℚ
  Cf : ℚ
  Cp : ℚ
  Cc : ℚ
  streams : MetricStreams
deriving DecidableEq

/-- `UFModule.compute` (uf.py).  `pow10O` is the `10 ** x` oracle used by the
Vogel-type viscosity correction; the flow outputs do not depend on it. -/
def ufCompute (pow10O : ℚ → ℚ) (cfg : UFConfigM) (feed : FeedInputM) : UfMetric :=
  let fl := ufFlows cfg feed
  let cf := feed.tds_mgL
  let temp_c := feed.temperature_C
  let design_flux := fDef cfg.design_flux_lmh 55.5
  let mu_t := 1.234 * pow10O (247.8 / (temp_c + 133.15) - 1.2)
  let temp_corr := clampQ (1.002 / max (1/10^9) mu_t) 0.25 4
  let lp_actual := fDef cfg.uf_Lp_20_lmh_bar 250 * temp_corr
  let flow_factor := clampQ (fDef cfg.flow_factor 1) 0.1 1
  let tmp_bar := fl.operating_flux / max (lp_actual * flow_factor) (1/10^9)
  let p_out := fDef cfg.permeate_back_pressure_bar 0.5
  let header_loss := fDef cfg.dp_module_bar 0.2
  let p_in := p_out + tmp_bar + header_loss
  let pump_eff := clampQ (fDef cfg.pump_eff 0.75) 0.2 0.95
  let power_kw := if 0 < fl.uf_feed_in then fl.uf_feed_in * p_in / 36 / pump_eff else 0
  let sec := if 1/10^12 < fl.net_flow then power_kw / fl.net_flow else 0
  { design_flux_lmh := pyRound 2 design_flux
    instantaneous_flux_lmh := pyRound 2 fl.operating_flux
    average_flux_lmh := pyRound 2 fl.average_flux
    flux_lmh := pyRound 2 fl.average_flux
    gross_flow_m3h := pyRound 3 fl.gross_flow
    net_flow_m3h := pyRound 3 fl.net_flow
    backwash_loss_m3h := pyRound 3 fl.total_backwash_loss
    recovery_pct := pyRound 2 fl.gross_recovery_pct
    net_recovery_pct := pyRound 2 fl.net_recovery_pct
    tmp_bar := pyRound 3 tmp_bar
    p_in_bar := pyRound 3 p_in
    p_out_bar := pyRound 3 p_out
    sec_kwhm3 := pyRound 4 sec
    Qf := pyRound 6 fl.raw_intake
    Qp := pyRound 6 fl.net_flow
    Qc := pyRound 6 fl.total_waste
    Cf := pyRound 6 cf
    Cp := pyRound 6 cf
    Cc := pyRound 6 cf
    streams := ⟨fl.raw_intake, cf, fl.net_flow, cf, fl.total_waste, cf⟩ }

-- =========================================================================
-- MF module (app/services/simulation/modules/mf.py)
-- =========================================================================

/-- The MF stage config fields `MFModule.compute` reads. -/
structure MFConfigM where
  elements : Option ℚ := none
  membrane_area_m2 : Option ℚ := none
  flux_lmh : Option ℚ := none
  backwash_flux_lmh : Option ℚ := none
  filtration_cycle_min : Option ℚ := none
  backwash_duration_sec : Option ℚ := none
  mf_cip_loss_factor : Option ℚ := none
  mf_permeability_25c_lmh_bar : Option ℚ := none
  mf_p_out_bar : Option ℚ := none
  mf_header_loss_bar : Option ℚ := none
  pump_eff : Option ℚ := none
deriving DecidableEq

/-- The `StageMetric` fields `MFModule.compute` fills, plus the unrounded
`chemistry["streams"]` block. -/
structure MfMetric where
  recovery_pct : ℚ
  flux_lmh : ℚ
  ndp_bar : ℚ
  sec_kwhm3 : ℚ
  p_in_bar : ℚ
  p_out_bar : ℚ
  Qf : ℚ
  Qp : ℚ
  Qc : ℚ
  Cf : ℚ
  Cp : ℚ
  Cc : ℚ
  streams : MetricStreams
deriving DecidableEq

/-- `MFModule.compute` (mf.py), fully rational. -/
def mfCompute (cfg : MFConfigM) (feed : FeedInputM) : MfMetric :=
  let feed_flow := feed.flow_m3h
  let cf := feed.tds_mgL
  let temp_c := feed.temperature_C
  let elements : ℤ := max 1 (truncQ (fDef cfg.elements 1))
  let area_per_el := fDef cfg.membrane_area_m2 60
  let total_area := max (1/10^9) ((elements : ℚ) * max (1/10^9) area_per_el)
  let flux0 := fDef cfg.flux_lmh 80
  let bw_flux := fDef cfg.backwash_flux_lmh (flux0 * 2)
  let filt_min := max 0.1 (fDef cfg.filtration_cycle_min 20)
  let bw_min := max 0 (fDef cfg.backwash_duration_sec 60 / 60)
  let cip := clampQ (fDef cfg.mf_cip_loss_factor 0.98) 0.7 1
  let cycle_time := max (1/10^6) (filt_min + bw_min)
  let filt_frac := filt_min / cycle_time
  let bw_frac := bw_min / cycle_time
  let gross0 := flux0 * total_area / 1000
  let capped := 0 < feed_flow ∧ feed_flow < gross0
  let gross := if capped then feed_flow else gross0
  let flux := if capped then gross * 1000 / total_area else flux0
  let bw_rate := bw_flux * total_area / 1000
  let net0 := max 0 ((gross * filt_frac - bw_rate * bw_frac) * cip)
  let net := if 0 < feed_flow ∧ feed_flow < net0 then feed_flow else net0
  let recovery_pct := if 1/10^12 < feed_flow then net / feed_flow * 100 else 0
  let qc := max 0 (feed_flow - net)
  let permeability_25c := fDef cfg.mf_permeability_25c_lmh_bar 500
  let temp_corr := clampQ (1 + 0.025 * (temp_c - 25)) 0.5 2
  let permeability := max (1/10^9) (permeability_25c * temp_corr)
  let tmp_bar := max 0 (flux / permeability)
  let p_out := fDef cfg.mf_p_out_bar 0.5
  let header_loss := fDef cfg.mf_header_loss_bar 0
  let p_in := p_out + tmp_bar + header_loss
  let pump_eff := clampQ (fDef cfg.pump_eff 0.75) 0.2 0.95
  let power_kw := if 0 < feed_flow ∧ 0 < p_in then feed_flow * p_in / 36 / pump_eff else 0
  let sec := if 1/10^12 < net then power_kw / net else 0
  { recovery_pct := pyRound 2 recovery_pct
    flux_lmh := pyRound 1 flux
    ndp_bar := pyRound 3 tmp_bar
    sec_kwhm3 := pyRound 4 sec
    p_in_bar := pyRound 3 p_in
    p_out_bar := pyRound 3 p_out
    Qf := pyRound 6 feed_flow
    Qp := pyRound 6 net
    Qc := pyRound 6 qc
    Cf := pyRound 6 cf
    Cp := pyRound 6 cf
    Cc := pyRound 6 cf
    streams := ⟨feed_flow, cf, net, cf, qc, cf⟩ }

-- =========================================================================
-- RO module (app/services/simulation/modules/ro.py)
-- =========================================================================

/-- The RO stage config fields `ROModule.compute` reads. -/
structure ROConfigM where
  elements : Option ℚ := none
  membrane_area_m2 : Option ℚ := none
  flow_factor : Option ℚ := none
  spi : Option ℚ := none
  membrane_A_lmh_bar : Option ℚ := none
  membrane_B_lmh : Option ℚ := none
  pressure_bar : Option ℚ := none
  pre_stage_dp_bar : Option ℚ := none
  isbp_pressure_bar : Option ℚ := none
  permeate_back_pressure_bar : Option ℚ := none
  dp_module_bar : Option ℚ := none
  pump_eff : Option ℚ := none
  isbp_eff_pct : Option ℚ := none
deriving DecidableEq

/-- The input/geometry/hydraulics resolution of `ROModule.compute`
(ro.py sections 1-3), one field per source local. -/
structure ROResolved where
  Qf : ℚ
  Cf : ℚ
  T : ℚ
  feed_p : ℚ
  elements : ℤ
  total_area : ℚ
  A : ℚ
  B : ℚ
  p_in : ℚ
  dp_total : ℚ
  p_out : ℚ
  avg_pressure : ℚ
  permeate_bp : ℚ
  deltaP : ℚ
deriving DecidableEq

/-- Sections 1-3 of `ROModule.compute`: feed state, geometry with fouling
factors, and the ISBP multi-stage pressure resolution. -/
def roResolve (cfg : ROConfigM) (feed : FeedInputM) : ROResolved :=
  let Qf := feed.flow_m3h
  let Cf := feed.tds_mgL
  let T := feed.temperature_C
  let feed_p := max 0 feed.pressure_bar
  let elements : ℤ := max 1 (truncQ (fDef cfg.elements 1))
  let area_per_element := fDef cfg.membrane_area_m2 40
  let total_area := max (1/10^9) ((elements : ℚ) * max (1/10^9) area_per_element)
  let flow_factor := fDef cfg.flow_factor 0.85
  let spi := fDef cfg.spi 1
  let A := max 0 (fDef cfg.membrane_A_lmh_bar 3) * flow_factor
  let B := max 0 (fDef cfg.membrane_B_lmh 0.1) * spi
  let dp_pipe := max 0 (fDef cfg.pre_stage_dp_bar 0)
  let p_boost := max 0 (fDef cfg.isbp_pressure_bar 0)
  let permeate_bp := max 0 (fDef cfg.permeate_back_pressure_bar 0)
  let p_in :=
    match cfg.pressure_bar with
    | some t => if 0 < t then t else max 0 (feed_p - dp_pipe + p_boost)
    | none => max 0 (feed_p - dp_pipe + p_boost)
  let dp_module := max 0 (fDef cfg.dp_module_bar 0.2)
  let dp_total := (elements : ℚ) * dp_module
  let p_out := max 0 (p_in - dp_total)
  let avg_pressure := max 0 (p_in - dp_total / 2)
  let deltaP := max 0 (avg_pressure - permeate_bp)
  ⟨Qf, Cf, T, feed_p, elements, total_area, A, B, p_in, dp_total, p_out,
   avg_pressure, permeate_bp, deltaP⟩

/-- One evaluation of the RO solution-diffusion/CP block shared by the loop
body (ro.py 173-197) and the final recomputation (ro.py 224-248). -/
structure ROBody where
  flux : ℚ
  cp_factor : ℚ
  cm : ℚ
  pi_cm : ℚ
  ndp : ℚ
  Cp : ℚ
  qp : ℚ
deriving DecidableEq

/-- The CP/flux/permeate block at a given bulk-average concentration.
`expO` models `math.exp` inside `_safe_exp`. -/
def roBody (expO : ℚ → ℚ) (r : ROResolved) (avg : ℚ) : ROBody :=
  let pi_bulk := osmoQ avg r.T
  let ndp_prov := max 0 (r.deltaP - pi_bulk)
  let flux_prov := r.A * ndp_prov
  let cp_factor :=
    if 0 < flux_prov then clampQ (expO (clampQ (flux_prov / 150) (-80) 80)) 1 5 else 1
  let cm := max 0 (avg * cp_factor)
  let pi_cm := osmoQ cm r.T
  let ndp := max 0 (r.deltaP - pi_cm)
  let flux0 := r.A * ndp
  let Cp0 := if 1/10^12 < flux0 + r.B then r.B * cm / (flux0 + r.B) else 0
  let Cp1 := max 0 Cp0
  let Cp := if 0 < r.Cf then min Cp1 r.Cf else Cp1
  let qp0 := flux0 * r.total_area / 1000
  let capped := r.Qf * (1 - 0.05) < qp0
  let qp := if capped then r.Qf * (1 - 0.05) else qp0
  let flux := if capped then qp * 1000 / r.total_area else flux0
  ⟨flux, cp_factor, cm, pi_cm, ndp, Cp, qp⟩

/-- The fixed-point iteration on the bulk-average concentration
(ro.py 172-219): up to `fuel` body evaluations, stopping once the relative
change drops below 1 %; returns the converged average. -/
def roLoop (expO : ℚ → ℚ) (r : ROResolved) : ℕ → ℚ → ℚ
  | 0, avg => avg
  | n + 1, avg =>
      let b := roBody expO r avg
      let qc := max (1/10^12) (r.Qf - b.qp)
      let Cc := max 0 ((r.Qf * r.Cf - b.qp * b.Cp) / qc)
      let newAvg := (r.Cf + Cc) / 2
      let rel := |newAvg - avg| / max (1/10^12) avg
      if rel < 0.01 then newAvg else roLoop expO r n newAvg

/-- The RO pump-energy block (ro.py 261-277): only the pressure boost added
by this stage is billed, with a main-pump/ISBP efficiency switch at a 5 bar
inlet pressure. -/
def roPowerKw (Qf p_in feed_p : ℚ) (pump_eff_opt isbp_eff_pct_opt : Option ℚ) : ℚ :=
  let boost := max 0 (p_in - feed_p)
  let pump_eff := clampQ (fDef pump_eff_opt 0.80) 0.2 0.95
  let isbp_eff := clampQ (fDef isbp_eff_pct_opt 80 / 100) 0.2 0.95
  let eff := if feed_p < 5 then pump_eff else isbp_eff
  if 0 < Qf ∧ 0 < boost then Qf * boost / 36 / eff else 0

/-- Specific energy consumption from pump power and permeate flow (ro.py 279). -/
def roSec (power_kw qp : ℚ) : ℚ := if 1/10^12 < qp then power_kw / qp else 0

/-- The `StageMetric` fields `ROModule.compute` fills, plus the unrounded
`chemistry["streams"]` block. -/
structure RoMetric where
  recovery_pct : ℚ
  flux_lmh : ℚ
  sec_kwhm3 : ℚ
  ndp_bar : ℚ
  delta_pi_bar : ℚ
  p_in_bar : ℚ
  p_out_bar : ℚ
  Qf : ℚ
  Qp : ℚ
  Qc : ℚ
  Cf : ℚ
  Cp : ℚ
  Cc : ℚ
  streams : MetricStreams
deriving DecidableEq

/-- The final deterministic recomputation and output assembly of
`ROModule.compute` (ro.py 224-340) at a converged average concentration. -/
def roFinal (expO : ℚ → ℚ) (cfg : ROConfigM) (r : ROResolved) (avg : ℚ) : RoMetric :=
  let b := roBody expO r avg
  let qc0 := max 0 (r.Qf - b.qp)
  let qc := if qc0 ≤ 1/10^12 then 1/10^12 else qc0
  let Cc := max 0 ((r.Qf * r.Cf - b.qp * b.Cp) / qc)
  let recovery_pct := (if 1/10^12 < r.Qf then b.qp / r.Qf else 0) * 100
  let power_kw := roPowerKw r.Qf r.p_in r.feed_p cfg.pump_eff cfg.isbp_eff_pct
  let sec := roSec power_kw b.qp
  { recovery_pct := pyRound 2 recovery_pct
    flux_lmh := pyRound 2 b.flux
    sec_kwhm3 := pyRound 4 sec
    ndp_bar := pyRound 3 b.ndp
    delta_pi_bar := pyRound 3 b.pi_cm
    p_in_bar := pyRound 3 r.p_in
    p_out_bar := pyRound 3 r.p_out
    Qf := pyRound 6 r.Qf
    Qp := pyRound 6 b.qp
    Qc := pyRound 6 qc
    Cf := pyRound 6 r.Cf
    Cp := pyRound 6 b.Cp
    Cc := pyRound 6 Cc
    streams := ⟨r.Qf, r.Cf, b.qp, b.Cp, qc, Cc⟩ }

/-- The degenerate-input early return of `ROModule.compute` (ro.py 102-149). -/
def roEarlyMetric (r : ROResolved) : RoMetric :=
  { recovery_pct := 0
    flux_lmh := 0
    sec_kwhm3 := 0
    ndp_bar := 0
    delta_pi_bar := pyRound 3 (osmoQ r.Cf r.T)
    p_in_bar := pyRound 3 r.p_in
    p_out_bar := pyRound 3 r.p_out
    Qf := pyRound 6 r.Qf
    Qp := 0
    Qc := pyRound 6 r.Qf
    Cf := pyRound 6 r.Cf
    Cp := 0
    Cc := pyRound 6 r.Cf
    streams := ⟨r.Qf, r.Cf, 0, 0, r.Qf, r.Cf⟩ }

/-- `ROModule.compute`: resolve inputs, run the 20-step fixed point seeded at
1.2 x feed TDS, then recompute every output at the converged average. -/
def roCompute (expO : ℚ → ℚ) (cfg : ROConfigM) (feed : FeedInputM) : RoMetric :=
  let r := roResolve cfg feed
  if r.Qf ≤ 1/10^12 ∨ r.total_area ≤ 1/10^12 ∨ r.A ≤ 0 then roEarlyMetric r
  else roFinal expO cfg r (roLoop expO r 20 (max 0 (r.Cf * 1.2)))

-- =========================================================================
-- NF module (app/services/simulation/modules/nf.py)
-- =========================================================================

/-- The NF stage config fields `NFModule.compute` reads. -/
structure NFConfigM where
  elements : Option ℚ := none
  membrane_area_m2 : Option ℚ := none
  membrane_A_lmh_bar : Option ℚ := none
  membrane_salt_rejection_pct : Option ℚ := none
  pressure_bar : Option ℚ := none
  dp_module_bar : Option ℚ := none
  pump_eff : Option ℚ := none
deriving DecidableEq

/-- The resolved NF inputs (nf.py 35-55). -/
structure NFResolved where
  Qf : ℚ
  Cf : ℚ
  T : ℚ
  total_area : ℚ
  A : ℚ
  rejection_rate : ℚ
  p_in : ℚ
  dp_total : ℚ
  avg_pressure : ℚ
deriving DecidableEq

/-- Input resolution of `NFModule.compute`. -/
def nfResolve (cfg : NFConfigM) (feed : FeedInputM) : NFResolved :=
  let elements : ℤ := max 1 (truncQ (fDef cfg.elements 1))
  let area_per_element := fDef cfg.membrane_area_m2 37
  let total_area := max (1/10^9) ((elements : ℚ) * max (1/10^9) area_per_element)
  let A := fDef cfg.membrane_A_lmh_bar 7
  let rej_pct := clampQ (fDef cfg.membrane_salt_rejection_pct 90) 0 99.9
  let p_in := fDef cfg.pressure_bar 5
  let dp_total := (elements : ℚ) * max 0 (fDef cfg.dp_module_bar 0.2)
  ⟨feed.flow_m3h, feed.tds_mgL, feed.temperature_C, total_area, A,
   rej_pct / 100, p_in, dp_total, max 0 (p_in - dp_total / 2)⟩

/-- The loop-carried NF variables (nf.py 55-98). -/
structure NFState where
  avg : ℚ
  flux : ℚ
  permeate_tds : ℚ
  ndp : ℚ
  concentrate_tds : ℚ
  recovery_frac : ℚ
deriving DecidableEq

/-- One iteration of the NF body (nf.py 63-98); `expO` models `math.exp`. -/
def nfStep (expO : ℚ → ℚ) (r : NFResolved) (st : NFState) : NFState :=
  let temp_K := r.T + 273.15
  let pi_bulk := (st.avg / 1000) * (75/100) * (temp_K / (29815/100))
  let pi_effective := pi_bulk * r.rejection_rate
  let ndp0 := r.avg_pressure - 0 - pi_effective
  let ndp := if ndp0 < 0.1 then 0.1 else ndp0
  let flux0 := r.A * ndp
  let cp_factor := if 0 < flux0 then expO (flux0 / 150) else 1
  let cm := st.avg * cp_factor
  let permeate_tds := max 0 (cm * (1 - r.rejection_rate))
  let qp0 := flux0 * r.total_area / 1000
  let capped := 0 < r.Qf ∧ r.Qf * 0.95 < qp0
  let qp := if capped then r.Qf * 0.95 else qp0
  let flux := if capped then qp * 1000 / r.total_area else flux0
  let recovery_frac := if 1/10^12 < r.Qf then qp / r.Qf else 0
  let qc := max (1/10^12) (r.Qf - qp)
  let concentrate_tds := max 0 ((r.Qf * r.Cf - qp * permeate_tds) / qc)
  let new_avg := (r.Cf + concentrate_tds) / 2
  ⟨new_avg, flux, permeate_tds, ndp, concentrate_tds, recovery_frac⟩

/-- The NF iteration with its early-exit convergence test (nf.py 63-98). -/
def nfLoop (expO : ℚ → ℚ) (r : NFResolved) : ℕ → NFState → NFState
  | 0, st => st
  | n + 1, st =>
      let ns := nfStep expO r st
      if 1/10^12 < st.avg ∧ |ns.avg - st.avg| / st.avg < 0.01 then ns
      else nfLoop expO r n ns

/-- The `StageMetric` fields `NFModule.compute` fills, plus the unrounded
`chemistry["streams"]` block. -/
structure NfMetric where
  recovery_pct : ℚ
  flux_lmh : ℚ
  sec_kwhm3 : ℚ
  ndp_bar : ℚ
  p_in_bar : ℚ
  p_out_bar : ℚ
  Qf : ℚ
  Qp : ℚ
  Qc : ℚ
  Cf : ℚ
  Cp : ℚ
  Cc : ℚ
  streams : MetricStreams
deriving DecidableEq

/-- `NFModule.compute`: 10-step loop seeded at 1.1 x feed TDS, then the final
permeate/concentrate split and energy (nf.py 100-152). -/
def nfCompute (expO : ℚ → ℚ) (cfg : NFConfigM) (feed : FeedInputM) : NfMetric :=
  let r := nfResolve cfg feed
  let st0 : NFState := ⟨max 0 (r.Cf * 1.1), 0, 0, 0, r.Cf, 0⟩
  let st := nfLoop expO r 10 st0
  let qp0 := st.flux * r.total_area / 1000
  let capped := 0 < r.Qf ∧ r.Qf * 0.95 < qp0
  let qp := if capped then r.Qf * 0.95 else qp0
  let qc := max 0 (r.Qf - qp)
  let recovery_pct := st.recovery_frac * 100
  let pump_eff := clampQ (fDef cfg.pump_eff 0.80) 0.2 0.95
  let power_kw := if 0 < r.Qf ∧ 0 < r.p_in then r.Qf * r.p_in / 36 / pump_eff else 0
  let sec := if 1/10^12 < qp then power_kw / qp else 0
  { recovery_pct := pyRound 2 recovery_pct
    flux_lmh := pyRound 2 st.flux
    sec_kwhm3 := pyRound 4 sec
    ndp_bar := pyRound 3 st.ndp
    p_in_bar := pyRound 3 r.p_in
    p_out_bar := pyRound 3 (r.p_in - r.dp_total)
    Qf := pyRound 6 r.Qf
    Qp := pyRound 6 qp
    Qc := pyRound 6 qc
    Cf := pyRound 6 r.Cf
    Cp := pyRound 6 st.permeate_tds
    Cc := pyRound 6 st.concentrate_tds
    streams := ⟨r.Qf, r.Cf, qp, st.permeate_tds, qc, st.concentrate_tds⟩ }

-- =========================================================================
-- HRRO module output assembly (app/services/simulation/modules/hrro.py)
-- =========================================================================

/-- ASCII lower-casing of one character (Python `str.lower` on the ASCII
strings this module handles). -/
def lowerChar (c : Char) : Char :=
  if 65 ≤ c.toNat ∧ c.toNat ≤ 90 then Char.ofNat (c.toNat + 32) else c

/-- Python whitespace test used by `str.strip`. -/
def isPySpace (c : Char) : Bool :=
  c == ' ' || c == '\t' || c == '\n' || c == '\r'

/-- Python string normalisation `_norm` (`(s or "").strip().lower()`),
implemented over the character list so it evaluates in the kernel. -/
def pyNormS (s : String) : String :=
  String.mk ((((s.data.dropWhile isPySpace).reverse.dropWhile isPySpace).reverse).map lowerChar)

/-- Python `(x or 0.0)` on an optional number (`None` and `0.0` give `0.0`). -/
def pyOrZero (x : Option ℚ) : ℚ :=
  match x with
  | some v => if v = 0 then 0 else v
  | none => 0

/-- The HRRO stage config fields the output assembly reads. -/
structure HRROConfigM where
  hrro_engine : Option String := none
  vessel_count : Option ℚ := none
  elements_per_vessel : Option ℚ := none
  elements : Option ℚ := none
  membrane_area_m2_per_element : Option ℚ := none
  membrane_area_m2 : Option ℚ := none
  feed_flow_m3h : Option ℚ := none
  ccro_recovery_pct : Option ℚ := none
  stop_recovery_pct : Option ℚ := none
  recovery_target_pct : Option ℚ := none
  pf_feed_ratio_pct : Option ℚ := none
  pf_recovery_pct : Option ℚ := none
  cc_recycle_m3h_per_pv : Option ℚ := none
  recirc_flow_m3h : Option ℚ := none
  pressure_bar : Option ℚ := none
  element_inch : Option ℤ := none
  hrro_excel_only_cp_mode : Option String := none
  hrro_excel_only_fixed_rejection_pct : Option ℚ := none
  hrro_excel_only_min_model_rejection_pct : Option ℚ := none
  membrane_salt_rejection_pct : Option ℚ := none
  flux_lmh : Option ℚ := none
  hrro_flow_factor : Option ℚ := none
  hrro_stage_pre_delta_p_bar : Option ℚ := none
  stage : Option ℚ := none
  stage_no : Option ℚ := none
  pump_eff : Option ℚ := none
deriving DecidableEq

/-- `infer_element_inch` (hrro.py 403-404). -/
def inferElementInch (area_m2_per_element : ℚ) : ℤ :=
  if 20 ≤ area_m2_per_element then 8 else 4

/-- The resolved HRRO inputs of `HRROModule.compute` (hrro.py 1240-1320).
`dArea` is the membrane-catalog default element area (the catalog is an
external collaborator looked up by `get_params_from_options`). -/
structure HRROResolved where
  engine_mode : String
  vessel_count : ℤ
  elements_per_vessel : ℤ
  area_m2_per_element : ℚ
  q_raw : ℚ
  ccro_rec : ℚ
  pf_feed_ratio : ℚ
  pf_recovery : ℚ
  cc_recycle_m3h_per_pv : ℚ
  qf_total : ℚ
  qp_excel : ℚ
  qc_excel : ℚ
  flux_excel : ℚ
  total_area : ℚ
  cf : ℚ
  temp_c : ℚ
  p_in_bar : ℚ
  element_inch : ℤ
  stage_no : ℤ
deriving DecidableEq

/-- Input resolution of `HRROModule.compute` down to the Excel baseline call. -/
def hrroResolve (dArea : ℚ) (cfg : HRROConfigM) (feed : FeedInputM) : HRROResolved :=
  let e0 := pyNormS (cfg.hrro_engine.getD "")
  let e1 := if e0 = "" then "excel_only" else e0
  let engine_mode := if e1 = "excel_physics" then "excel_physics" else "excel_only"
  let vessel_count : ℤ := max 1 (truncQ (fDef cfg.vessel_count 1))
  let epv0 : ℚ :=
    match cfg.elements_per_vessel with
    | some v => v
    | none => fDef cfg.elements 6
  let elements_per_vessel : ℤ := max 1 (truncQ epv0)
  let area_opt : Option ℚ :=
    match cfg.membrane_area_m2_per_element with
    | some v => some v
    | none => cfg.membrane_area_m2
  let area_m2_per_element := max (1/10^9) (fDef area_opt dArea)
  let q_raw := max (1/10^9) (cfg.feed_flow_m3h.getD feed.flow_m3h)
  let ccro_rec0 : ℚ :=
    match cfg.ccro_recovery_pct with
    | some v => v
    | none => pyOrQ cfg.stop_recovery_pct (pyOrQ cfg.recovery_target_pct 85)
  let ccro_rec := clampQ ccro_rec0 0 100
  let pf_feed_ratio := fDef cfg.pf_feed_ratio_pct 110
  let pf_recovery := clampQ (fDef cfg.pf_recovery_pct 10) 0 100
  let cc_recycle : ℚ :=
    match cfg.cc_recycle_m3h_per_pv with
    | some v => max 0 v
    | none =>
        let recirc := fDef cfg.recirc_flow_m3h 0
        max 0 (if 0 < vessel_count then recirc / (vessel_count : ℚ) else recirc)
  let excel := computeExcel
    ⟨q_raw, ccro_rec, pf_feed_ratio, pf_recovery, cc_recycle,
     vessel_count, elements_per_vessel, area_m2_per_element⟩
  let cf := max 0 feed.tds_mgL
  let pre_stage_dp := fDef cfg.hrro_stage_pre_delta_p_bar 0
  let p_in_user := cfg.pressure_bar.getD feed.pressure_bar
  let p_in_bar := max 0 (p_in_user - pre_stage_dp)
  let element_inch := cfg.element_inch.getD (inferElementInch area_m2_per_element)
  let stage_no := truncQ (pyOrQ cfg.stage (pyOrQ cfg.stage_no 1))
  ⟨engine_mode, vessel_count, elements_per_vessel, area_m2_per_element,
   q_raw, ccro_rec, pf_feed_ratio, pf_recovery, cc_recycle,
   q_raw, excel.ccro_qp_m3h, excel.ccro_qc_m3h, excel.ccro_flux_lmh,
   excel.total_area_m2, cf, feed.temperature_C, p_in_bar, element_inch, stage_no⟩

/-- `excel_only_compute_cp_cc` (hrro.py 581-629): Cp from a rejection figure
and Cc from the salt balance. -/
def excelOnlyCpCc (cf qf qp qc : ℚ) (cp_mode : String)
    (fixed_rejection_pct : ℚ) (min_model_rejection_pct : Option ℚ)
    (fallback_rejection_pct : ℚ) : Option ℚ × Option ℚ :=
  let cfp := max 0 cf
  let qfp := max 0 qf
  let qpp := max 0 qp
  let qcp := max 0 qc
  let mode := pyNormS cp_mode
  if mode = "none" then (none, none)
  else
    let rej :=
      if mode = "fixed_rejection" then clampQ fixed_rejection_pct 0 100
      else
        match min_model_rejection_pct with
        | some v => clampQ v 0 100
        | none => clampQ fallback_rejection_pct 0 100
    let cp := cfp * (1 - rej / 100)
    let cc : Option ℚ :=
      if 1/10^12 < qcp then some (max 0 (qfp * cfp - qpp * cp) / qcp) else none
    (some cp, cc)

/-- The `StageMetric` fields `HRROModule.compute` fills.  Unlike the other
modules, the flow/TDS fields are stored unrounded and there is no
`chemistry["streams"]` block. -/
structure HrroMetric where
  recovery_pct : ℚ
  net_recovery_pct : ℚ
  flux_lmh : ℚ
  sec_kwhm3 : ℚ
  p_in_bar : ℚ
  Qf : ℚ
  Qp : ℚ
  Qc : ℚ
  Cf : ℚ
  Cp : ℚ
  Cc : ℚ
deriving DecidableEq

/-- The excel_only `StageMetric` assembly (hrro.py 1325-1449).  `avg_sec` is
the batch-history average SEC (a transcendental-laden by-product that the
flow/TDS outputs do not depend on), passed through as a parameter. -/
def hrroExcelOnlyMetric (h : HRROResolved) (cfg : HRROConfigM) (avg_sec : ℚ) : HrroMetric :=
  let rec_pct := if 0 < h.qf_total then h.qp_excel / h.qf_total * 100 else 0
  let cp_mode_str := match cfg.hrro_excel_only_cp_mode with
    | some s => if s = "" then "min_model" else s
    | none => "min_model"
  let res := excelOnlyCpCc h.cf h.qf_total h.qp_excel h.qc_excel cp_mode_str
    (fDef cfg.hrro_excel_only_fixed_rejection_pct 99.5)
    cfg.hrro_excel_only_min_model_rejection_pct
    (fDef cfg.membrane_salt_rejection_pct 99.63)
  { recovery_pct := pyRound 2 rec_pct
    net_recovery_pct := pyRound 2 rec_pct
    flux_lmh := pyRound 3 h.flux_excel
    sec_kwhm3 := pyRound 2 avg_sec
    p_in_bar := pyRound 3 h.p_in_bar
    Qf := h.qf_total
    Qp := h.qp_excel
    Qc := h.qc_excel
    Cf := h.cf
    Cp := pyOrZero res.1
    Cc := pyOrZero res.2 }

/-- The excel_physics `StageMetric` assembly (hrro.py 1589-1725).  The axial
solver's outputs enter only through `p_in_used` (the bisected inlet pressure)
and `avg_sec`; the flow fields come from the Excel baseline or the user target
flux with the 0.999-recovery permeate clamp, and `Cp`/`Cc` are the literal
constants `0.0` of the source. -/
def hrroPhysicsMetric (h : HRROResolved) (cfg : HRROConfigM)
    (p_in_used avg_sec : ℚ) : HrroMetric :=
  let target_flux := max 0 (cfg.flux_lmh.getD h.flux_excel)
  let qp_total :=
    match cfg.flux_lmh with
    | none => max 0 h.qp_excel
    | some _ =>
        let qp_from_flux := max 0 (target_flux * max h.total_area (1/10^9) / 1000)
        let qp_limit := 0.999 * max h.qf_total 0
        if qp_limit < qp_from_flux then qp_limit else qp_from_flux
  let qc_total :=
    match cfg.flux_lmh with
    | none => max 0 h.qc_excel
    | some _ => max 0 (h.qf_total - qp_total)
  let flux_ach :=
    match cfg.flux_lmh with
    | none => h.flux_excel
    | some _ => qp_total * 1000 / max h.total_area (1/10^9)
  let rec_pct := if 0 < h.qf_total then qp_total / h.qf_total * 100 else 0
  { recovery_pct := pyRound 2 rec_pct
    net_recovery_pct := pyRound 2 rec_pct
    flux_lmh := pyRound 3 flux_ach
    sec_kwhm3 := pyRound 2 avg_sec
    p_in_bar := pyRound 3 p_in_used
    Qf := h.qf_total
    Qp := qp_total
    Qc := qc_total
    Cf := h.cf
    Cp := 0
    Cc := 0 }

-- =========================================================================
-- Helper lemmas
-- =========================================================================

lemma pyRound_zero (n : ℕ) : pyRound n 0 = 0 := by
  simp [pyRound]

lemma clampQ_le (x lo hi : ℚ) (h : lo ≤ hi) : clampQ x lo hi ≤ hi := by
  simp only [clampQ, max_le_iff]
  exact ⟨h, min_le_right x hi⟩

lemma le_clampQ (x lo hi : ℚ) : lo ≤ clampQ x lo hi := le_max_left lo _

lemma clampQ_idem (x lo hi : ℚ) (h : lo ≤ hi) :
    clampQ (clampQ x lo hi) lo hi = clampQ x lo hi := by
  have h1 : lo ≤ clampQ x lo hi := le_clampQ _ _ _
  have h2 : clampQ x lo hi ≤ hi := clampQ_le _ _ _ h
  unfold clampQ at h1 h2 ⊢
  rw [min_eq_left h2, max_eq_right h1]

lemma pyOrZero_some (v : ℚ) : pyOrZero (some v) = v := by
  simp only [pyOrZero]
  split_ifs with h
  · exact h.symm
  · rfl

lemma osmoQ_mono (c₁ c₂ T : ℚ) (h : c₁ ≤ c₂) : osmoQ c₁ T ≤ osmoQ c₂ T := by
  unfold osmoQ
  have h1 : max 0 c₁ ≤ max 0 c₂ := max_le_max le_rfl h
  have h2 : (0:ℚ) ≤ max 1 (T + 27315/100) / (29815/100) := by positivity
  have h3 : max 0 c₁ / 1000 * (75/100) ≤ max 0 c₂ / 1000 * (75/100) := by
    nlinarith
  nlinarith

lemma osmoQ_nonneg (c T : ℚ) : 0 ≤ osmoQ c T := by
  unfold osmoQ
  positivity

-- =========================================================================
-- RO lemmas
-- =========================================================================

/-- The permeate-flow cap: the body's permeate flow never exceeds
`0.95 * Qf`, whether or not the cap fires. -/
lemma roBody_qp_le (expO : ℚ → ℚ) (r : ROResolved) (avg : ℚ) :
    (roBody expO r avg).qp ≤ r.Qf * (1 - 0.05) := by
  unfold roBody
  dsimp only
  split_ifs with h1 h2 h3
  · exact le_rfl
  · exact le_of_not_lt h2
  · exact le_rfl
  · exact le_of_not_lt h3

/-- Below the bulk osmotic pressure the NDP clamp pins the body's flux and
permeate flow at zero. -/
lemma roBody_zero (expO : ℚ → ℚ) (r : ROResolved) (avg : ℚ)
    (havg : 0 ≤ avg) (hp : r.deltaP ≤ osmoQ avg r.T) (hQ : 0 ≤ r.Qf) :
    (roBody expO r avg).flux = 0 ∧ (roBody expO r avg).qp = 0 := by
  unfold roBody
  have e1 : max 0 (r.deltaP - osmoQ avg r.T) = 0 := max_eq_left (by linarith)
  have e3 : ¬ (r.Qf * (1 - 0.05) < (0:ℚ)) := not_lt.mpr (by nlinarith)
  dsimp only
  simp only [e1, mul_zero, lt_self_iff_false, if_false, mul_one, max_eq_right havg,
    zero_mul, zero_div, e3]
  exact ⟨trivial, trivial⟩

/-- Under the zero-flux regime one loop step maps any seed to `Cf`. -/
lemma roLoop_step_to_Cf (expO : ℚ → ℚ) (r : ROResolved) (avg : ℚ)
    (havg : 0 ≤ avg) (hp : r.deltaP ≤ osmoQ avg r.T)
    (hQ : 1/10^12 < r.Qf) (hC : 0 ≤ r.Cf) :
    (r.Cf + max 0 ((r.Qf * r.Cf - (roBody expO r avg).qp * (roBody expO r avg).Cp) /
      max (1/10^12) (r.Qf - (roBody expO r avg).qp))) / 2 = r.Cf := by
  obtain ⟨-, hqp⟩ := roBody_zero expO r avg havg hp (le_of_lt (lt_trans (by norm_num) hQ))
  rw [hqp]
  have hmax : max (1/10^12) (r.Qf - 0) = r.Qf := by
    rw [sub_zero, max_eq_right (le_of_lt hQ)]
  rw [hmax, zero_mul, sub_zero]
  have hQ0 : r.Qf ≠ 0 := by positivity
  have hdiv : r.Qf * r.Cf / r.Qf = r.Cf := by
    field_simp
  rw [hdiv, max_eq_right hC]
  ring

/-- In the zero-flux regime the whole 20-step fixed point converges to `Cf`. -/
lemma roLoop_zero_regime (expO : ℚ → ℚ) (r : ROResolved)
    (hC : 0 < r.Cf) (hQ : 1/10^12 < r.Qf)
    (hp : r.deltaP ≤ osmoQ r.Cf r.T) :
    roLoop expO r 20 (max 0 (r.Cf * 1.2)) = r.Cf := by
  have hC0 : (0:ℚ) ≤ r.Cf := le_of_lt hC
  have hseed : max 0 (r.Cf * 1.2) = r.Cf * 1.2 := max_eq_right (by nlinarith)
  have hmono : r.deltaP ≤ osmoQ (r.Cf * 1.2) r.T :=
    le_trans hp (osmoQ_mono _ _ _ (by nlinarith))
  have hstepCf : ∀ avg, 0 ≤ avg → r.deltaP ≤ osmoQ avg r.T →
      (r.Cf + max 0 ((r.Qf * r.Cf - (roBody expO r avg).qp * (roBody expO r avg).Cp) /
        max (1/10^12) (r.Qf - (roBody expO r avg).qp))) / 2 = r.Cf :=
    fun avg h1 h2 => roLoop_step_to_Cf expO r avg h1 h2 hQ hC0
  have hfix : ∀ n : ℕ, roLoop expO r (n + 1) r.Cf = r.Cf := by
    intro n
    unfold roLoop
    dsimp only
    rw [hstepCf r.Cf hC0 hp]
    rw [sub_self, abs_zero, zero_div]
    norm_num
  rw [hseed]
  show roLoop expO r (19 + 1) (r.Cf * 1.2) = r.Cf
  unfold roLoop
  dsimp only
  rw [hstepCf (r.Cf * 1.2) (by nlinarith) hmono]
  split_ifs with hrel
  · rfl
  · exact hfix 18

/-- Flow conservation of the RO final recomputation: with the tiny-flow
concentrate floor inactive the split is exact. -/
lemma roFinal_flow (expO : ℚ → ℚ) (cfg : ROConfigM) (r : ROResolved) (avg : ℚ)
    (hQ : 2e-11 < r.Qf) :
    (roFinal expO cfg r avg).streams.perm_flow +
      (roFinal expO cfg r avg).streams.conc_flow = r.Qf := by
  have hqp := roBody_qp_le expO r avg
  have hpos : (1:ℚ)/10^12 < r.Qf - (roBody expO r avg).qp := by nlinarith
  unfold roFinal
  dsimp only
  have h1 : max 0 (r.Qf - (roBody expO r avg).qp) = r.Qf - (roBody expO r avg).qp := by
    rw [max_eq_right]; nlinarith
  rw [h1, if_neg (not_le.mpr hpos)]
  ring

/-- Salt conservation of the RO final recomputation. -/
lemma roFinal_salt (expO : ℚ → ℚ) (cfg : ROConfigM) (r : ROResolved) (avg : ℚ)
    (hQ : 2e-11 < r.Qf) (hC : 0 < r.Cf) :
    (roFinal expO cfg r avg).streams.perm_flow * (roFinal expO cfg r avg).streams.perm_tds +
      (roFinal expO cfg r avg).streams.conc_flow * (roFinal expO cfg r avg).streams.conc_tds =
      r.Qf * r.Cf := by
  have hqp := roBody_qp_le expO r avg
  have hCp0 : 0 ≤ (roBody expO r avg).Cp := by
    unfold roBody
    dsimp only
    rw [if_pos hC]
    exact le_min (le_max_left _ _) (le_of_lt hC)
  have hCpC : (roBody expO r avg).Cp ≤ r.Cf := by
    unfold roBody
    dsimp only
    rw [if_pos hC]
    exact min_le_right _ _
  have hsalt : (roBody expO r avg).qp * (roBody expO r avg).Cp ≤ r.Qf * r.Cf := by
    rcases le_or_lt (roBody expO r avg).qp 0 with h | h
    · nlinarith
    · nlinarith
  have hpos : (1:ℚ)/10^12 < r.Qf - (roBody expO r avg).qp := by nlinarith
  unfold roFinal
  dsimp only
  have h1 : max 0 (r.Qf - (roBody expO r avg).qp) = r.Qf - (roBody expO r avg).qp := by
    rw [max_eq_right]; nlinarith
  rw [h1, if_neg (not_le.mpr hpos)]
  have hqc0 : r.Qf - (roBody expO r avg).qp ≠ 0 := by nlinarith
  have h2 : max 0 ((r.Qf * r.Cf - (roBody expO r avg).qp * (roBody expO r avg).Cp) /
      (r.Qf - (roBody expO r avg).qp)) =
      (r.Qf * r.Cf - (roBody expO r avg).qp * (roBody expO r avg).Cp) /
      (r.Qf - (roBody expO r avg).qp) := by
    rw [max_eq_right]
    apply div_nonneg (by linarith)
    nlinarith
  rw [h2]
  field_simp

lemma roResolve_Qf (cfg : ROConfigM) (feed : FeedInputM) :
    (roResolve cfg feed).Qf = feed.flow_m3h := rfl

lemma roResolve_Cf (cfg : ROConfigM) (feed : FeedInputM) :
    (roResolve cfg feed).Cf = feed.tds_mgL := rfl

lemma roResolve_T (cfg : ROConfigM) (feed : FeedInputM) :
    (roResolve cfg feed).T = feed.temperature_C := rfl

/-- Flow conservation of the full RO compute (streams block, unrounded). -/
lemma roCompute_flow (expO : ℚ → ℚ) (cfg : ROConfigM) (feed : FeedInputM)
    (hQ : 2e-11 < feed.flow_m3h) :
    (roCompute expO cfg feed).streams.perm_flow +
      (roCompute expO cfg feed).streams.conc_flow =
      (roCompute expO cfg feed).streams.feed_flow := by
  have hQr : 2e-11 < (roResolve cfg feed).Qf := hQ
  unfold roCompute
  dsimp only
  split_ifs with h
  · show (0:ℚ) + (roResolve cfg feed).Qf = (roResolve cfg feed).Qf
    ring
  · exact roFinal_flow expO cfg (roResolve cfg feed)
      (roLoop expO (roResolve cfg feed) 20 (max 0 ((roResolve cfg feed).Cf * 1.2))) hQr

/-- Salt conservation of the full RO compute (streams block, unrounded). -/
lemma roCompute_salt (expO : ℚ → ℚ) (cfg : ROConfigM) (feed : FeedInputM)
    (hQ : 2e-11 < feed.flow_m3h) (hC : 0 < feed.tds_mgL) :
    (roCompute expO cfg feed).streams.perm_flow * (roCompute expO cfg feed).streams.perm_tds +
      (roCompute expO cfg feed).streams.conc_flow * (roCompute expO cfg feed).streams.conc_tds =
      (roCompute expO cfg feed).streams.feed_flow * (roCompute expO cfg feed).streams.feed_tds := by
  have hQr : 2e-11 < (roResolve cfg feed).Qf := hQ
  have hCr : 0 < (roResolve cfg feed).Cf := hC
  unfold roCompute
  dsimp only
  split_ifs with h
  · show (0:ℚ) * 0 + (roResolve cfg feed).Qf * (roResolve cfg feed).Cf =
      (roResolve cfg feed).Qf * (roResolve cfg feed).Cf
    ring
  · exact roFinal_salt expO cfg (roResolve cfg feed)
      (roLoop expO (roResolve cfg feed) 20 (max 0 ((roResolve cfg feed).Cf * 1.2))) hQr hCr

/-- In the zero-NDP regime the full RO compute reports flux 0 and permeate 0
whatever the exp oracle: the claim-relevant content of the C4 correction. -/
lemma roCompute_flux_zero (expO : ℚ → ℚ) (cfg : ROConfigM) (feed : FeedInputM)
    (hC : 0 < feed.tds_mgL)
    (hp : (roResolve cfg feed).deltaP ≤ osmoQ feed.tds_mgL feed.temperature_C) :
    (roCompute expO cfg feed).flux_lmh = 0 ∧ (roCompute expO cfg feed).Qp = 0 := by
  have hCr : 0 < (roResolve cfg feed).Cf := hC
  have hpr : (roResolve cfg feed).deltaP ≤
      osmoQ (roResolve cfg feed).Cf (roResolve cfg feed).T := hp
  unfold roCompute
  dsimp only
  split_ifs with h
  · exact ⟨rfl, rfl⟩
  · push_neg at h
    obtain ⟨h1, -, -⟩ := h
    have h1' : (1:ℚ)/10^12 < (roResolve cfg feed).Qf := h1
    rw [roLoop_zero_regime expO (roResolve cfg feed) hCr h1' hpr]
    obtain ⟨hf, hq⟩ := roBody_zero expO (roResolve cfg feed) (roResolve cfg feed).Cf
      (le_of_lt hCr) hpr (le_of_lt (lt_trans (by norm_num) h1'))
    unfold roFinal
    dsimp only
    rw [hf, hq, pyRound_zero, pyRound_zero]
    exact ⟨rfl, rfl⟩

-- =========================================================================
-- NF lemmas
-- =========================================================================

lemma nfResolve_Qf (cfg : NFConfigM) (feed : FeedInputM) :
    (nfResolve cfg feed).Qf = feed.flow_m3h := rfl

lemma nfResolve_Cf (cfg : NFConfigM) (feed : FeedInputM) :
    (nfResolve cfg feed).Cf = feed.tds_mgL := rfl

lemma nfResolve_area_pos (cfg : NFConfigM) (feed : FeedInputM) :
    0 < (nfResolve cfg feed).total_area :=
  lt_of_lt_of_le (by norm_num) (le_max_left _ _)

lemma div_mul_div_cancel_q (x a : ℚ) (ha : a ≠ 0) : x * 1000 / a * a / 1000 = x := by
  field_simp

lemma balance_split (feed net : ℚ) (h : net ≤ feed) : net + max 0 (feed - net) = feed := by
  rw [max_eq_right (by linarith)]
  ring

/-- The NF loop always returns the output of a step. -/
lemma nfLoop_is_step (expO : ℚ → ℚ) (r : NFResolved) :
    ∀ (n : ℕ) (st : NFState), ∃ st1, nfLoop expO r (n + 1) st = nfStep expO r st1 := by
  intro n
  induction n with
  | zero =>
      intro st
      refine ⟨st, ?_⟩
      unfold nfLoop
      dsimp only
      split_ifs <;> rfl
  | succ k ih =>
      intro st
      unfold nfLoop
      dsimp only
      split_ifs with h
      · exact ⟨st, rfl⟩
      · exact ih (nfStep expO r st)

/-- Invariants of one NF step: the (reconstructed) permeate flow respects the
95 % cap and the step's concentrate TDS matches the salt balance at that flow. -/
lemma nfStep_out (expO : ℚ → ℚ) (r : NFResolved) (st : NFState)
    (hQ : 2e-11 < r.Qf) (hA : 0 < r.total_area) :
    (nfStep expO r st).flux * r.total_area / 1000 ≤ r.Qf * 0.95 ∧
    (nfStep expO r st).concentrate_tds =
      max 0 ((r.Qf * r.Cf - (nfStep expO r st).flux * r.total_area / 1000 *
        (nfStep expO r st).permeate_tds) /
        (r.Qf - (nfStep expO r st).flux * r.total_area / 1000)) := by
  have hQ0 : (0:ℚ) < r.Qf := by nlinarith
  have hA0 : r.total_area ≠ 0 := ne_of_gt hA
  unfold nfStep
  dsimp only
  split_ifs
  all_goals try simp only [div_mul_div_cancel_q _ _ hA0]
  all_goals constructor
  all_goals first
    | exact le_rfl
    | exact le_of_not_lt fun hlt => absurd (And.intro hQ0 hlt) (by assumption)
    | (congr 2
       apply max_eq_right
       nlinarith)
    | (congr 2
       apply max_eq_right
       have hle : _ ≤ r.Qf * 0.95 :=
         le_of_not_lt fun hlt => absurd (And.intro hQ0 hlt) (by assumption)
       nlinarith [hle])

/-- Flow conservation of the full NF compute (streams block, unrounded). -/
lemma nfCompute_flow (expO : ℚ → ℚ) (cfg : NFConfigM) (feed : FeedInputM)
    (hQ : 0 < feed.flow_m3h) :
    (nfCompute expO cfg feed).streams.perm_flow +
      (nfCompute expO cfg feed).streams.conc_flow =
      (nfCompute expO cfg feed).streams.feed_flow := by
  have hQr : 0 < (nfResolve cfg feed).Qf := hQ
  unfold nfCompute
  dsimp only
  split_ifs with hcap
  · exact balance_split _ _ (by nlinarith)
  · have hle : (nfLoop expO (nfResolve cfg feed) 10
        ⟨max 0 ((nfResolve cfg feed).Cf * 1.1), 0, 0, 0, (nfResolve cfg feed).Cf, 0⟩).flux *
        (nfResolve cfg feed).total_area / 1000 ≤ (nfResolve cfg feed).Qf * 0.95 :=
      le_of_not_lt fun hlt => hcap ⟨hQr, hlt⟩
    exact balance_split _ _ (by nlinarith [hle])

/-- Salt conservation of the full NF compute, under the hypothesis that the
concentrate-TDS floor `max(0, .)` is inactive (the permeate does not carry
more salt than the feed). -/
lemma nfCompute_salt (expO : ℚ → ℚ) (cfg : NFConfigM) (feed : FeedInputM)
    (hQ : 2e-11 < feed.flow_m3h)
    (hclamp : (nfCompute expO cfg feed).streams.perm_flow *
      (nfCompute expO cfg feed).streams.perm_tds ≤ feed.flow_m3h * feed.tds_mgL) :
    (nfCompute expO cfg feed).streams.perm_flow * (nfCompute expO cfg feed).streams.perm_tds +
      (nfCompute expO cfg feed).streams.conc_flow * (nfCompute expO cfg feed).streams.conc_tds =
      (nfCompute expO cfg feed).streams.feed_flow * (nfCompute expO cfg feed).streams.feed_tds := by
  have hQr : 2e-11 < (nfResolve cfg feed).Qf := hQ
  have hQ0 : (0:ℚ) < (nfResolve cfg feed).Qf := by nlinarith
  obtain ⟨st1, hst⟩ := nfLoop_is_step expO (nfResolve cfg feed) 9
    ⟨max 0 ((nfResolve cfg feed).Cf * 1.1), 0, 0, 0, (nfResolve cfg feed).Cf, 0⟩
  have hst10 : nfLoop expO (nfResolve cfg feed) 10
      ⟨max 0 ((nfResolve cfg feed).Cf * 1.1), 0, 0, 0, (nfResolve cfg feed).Cf, 0⟩ =
      nfStep expO (nfResolve cfg feed) st1 := hst
  obtain ⟨hcap_le, hcc⟩ := nfStep_out expO (nfResolve cfg feed) st1 hQr
    (nfResolve_area_pos cfg feed)
  unfold nfCompute at hclamp ⊢
  dsimp only at hclamp ⊢
  rw [hst10] at hclamp ⊢
  rw [if_neg (fun h => absurd h.2 (not_lt.mpr hcap_le))] at hclamp ⊢
  rw [hcc]
  have hqcpos : (0:ℚ) < (nfResolve cfg feed).Qf -
      (nfStep expO (nfResolve cfg feed) st1).flux * (nfResolve cfg feed).total_area / 1000 := by
    nlinarith [hcap_le]
  rw [max_eq_right (le_of_lt hqcpos)]
  have hnum : (0:ℚ) ≤ (nfResolve cfg feed).Qf * (nfResolve cfg feed).Cf -
      (nfStep expO (nfResolve cfg feed) st1).flux * (nfResolve cfg feed).total_area / 1000 *
      (nfStep expO (nfResolve cfg feed) st1).permeate_tds := by
    have : (nfResolve cfg feed).Qf * (nfResolve cfg feed).Cf =
        feed.flow_m3h * feed.tds_mgL := rfl
    linarith [hclamp]
  rw [max_eq_right (div_nonneg hnum (le_of_lt hqcpos))]
  have key : ∀ a b c : ℚ, c ≠ 0 → a + c * ((b - a) / c) = b := by
    intro a b c hc
    field_simp
  exact key _ _ _ (ne_of_gt hqcpos)

-- =========================================================================
-- UF / MF lemmas
-- =========================================================================

lemma uf_balance_arith (raw feedin ff bw strainer : ℚ)
    (hs : strainer = raw - feedin) (h1 : ff ≤ feedin) (h2 : bw ≤ max 0 (feedin - ff)) :
    max 0 (max 0 (feedin - ff) - bw) + (bw + ff + strainer) = raw := by
  rw [max_eq_right (by linarith : (0:ℚ) ≤ feedin - ff)] at h2 ⊢
  rw [max_eq_right (by linarith : (0:ℚ) ≤ feedin - ff - bw)]
  linarith

/-- Flow conservation of the UF flow block when neither the gross-production
clamp nor the net-production clamp engages. -/
lemma ufFlows_conserve (cfg : UFConfigM) (feed : FeedInputM)
    (h1 : (ufFlows cfg feed).avg_ff_loss ≤ (ufFlows cfg feed).uf_feed_in)
    (h2 : (ufFlows cfg feed).avg_bw_loss ≤ (ufFlows cfg feed).avg_gross_prod) :
    (ufFlows cfg feed).net_flow + (ufFlows cfg feed).total_waste =
      (ufFlows cfg feed).raw_intake := by
  unfold ufFlows at h1 h2 ⊢
  dsimp only at h1 h2 ⊢
  exact uf_balance_arith _ _ _ _ _ (by ring) h1 h2

/-- The same conservation statement read off the UF metric's stream block. -/
lemma ufCompute_flow (pow10O : ℚ → ℚ) (cfg : UFConfigM) (feed : FeedInputM)
    (h1 : (ufFlows cfg feed).avg_ff_loss ≤ (ufFlows cfg feed).uf_feed_in)
    (h2 : (ufFlows cfg feed).avg_bw_loss ≤ (ufFlows cfg feed).avg_gross_prod) :
    (ufCompute pow10O cfg feed).streams.perm_flow +
      (ufCompute pow10O cfg feed).streams.conc_flow =
      (ufCompute pow10O cfg feed).streams.feed_flow :=
  ufFlows_conserve cfg feed h1 h2

/-- Salt conservation of the UF metric: the module keeps TDS unchanged on all
three streams, so the salt balance is the flow balance times the feed TDS. -/
lemma ufCompute_salt (pow10O : ℚ → ℚ) (cfg : UFConfigM) (feed : FeedInputM)
    (h1 : (ufFlows cfg feed).avg_ff_loss ≤ (ufFlows cfg feed).uf_feed_in)
    (h2 : (ufFlows cfg feed).avg_bw_loss ≤ (ufFlows cfg feed).avg_gross_prod) :
    (ufCompute pow10O cfg feed).streams.perm_flow * (ufCompute pow10O cfg feed).streams.perm_tds +
      (ufCompute pow10O cfg feed).streams.conc_flow * (ufCompute pow10O cfg feed).streams.conc_tds =
      (ufCompute pow10O cfg feed).streams.feed_flow *
        (ufCompute pow10O cfg feed).streams.feed_tds := by
  have h := ufFlows_conserve cfg feed h1 h2
  show (ufFlows cfg feed).net_flow * feed.tds_mgL +
    (ufFlows cfg feed).total_waste * feed.tds_mgL =
    (ufFlows cfg feed).raw_intake * feed.tds_mgL
  rw [← add_mul, h]

/-- Flow conservation of the MF compute: the net production is clamped to the
feed flow, so the waste split is exact. -/
lemma mfCompute_flow (cfg : MFConfigM) (feed : FeedInputM) (hQ : 0 < feed.flow_m3h) :
    (mfCompute cfg feed).streams.perm_flow + (mfCompute cfg feed).streams.conc_flow =
      (mfCompute cfg feed).streams.feed_flow := by
  unfold mfCompute
  dsimp only
  split_ifs
  all_goals first
    | exact balance_split _ _ le_rfl
    | exact balance_split _ _ (le_of_not_lt fun hlt => absurd (And.intro hQ hlt) (by assumption))

/-- Salt conservation of the MF compute (TDS unchanged on all streams). -/
lemma mfCompute_salt (cfg : MFConfigM) (feed : FeedInputM) (hQ : 0 < feed.flow_m3h) :
    (mfCompute cfg feed).streams.perm_flow * (mfCompute cfg feed).streams.perm_tds +
      (mfCompute cfg feed).streams.conc_flow * (mfCompute cfg feed).streams.conc_tds =
      (mfCompute cfg feed).streams.feed_flow * (mfCompute cfg feed).streams.feed_tds := by
  have h := mfCompute_flow cfg feed hQ
  revert h
  unfold mfCompute
  dsimp only
  intro h
  rw [← add_mul, h]

-- =========================================================================
-- HRRO lemmas
-- =========================================================================

lemma hrroResolve_qf_pos (dArea : ℚ) (cfg : HRROConfigM) (feed : FeedInputM) :
    0 < (hrroResolve dArea cfg feed).qf_total :=
  lt_of_lt_of_le (by norm_num) (le_max_left _ _)

lemma hrroResolve_cf_nonneg (dArea : ℚ) (cfg : HRROConfigM) (feed : FeedInputM) :
    0 ≤ (hrroResolve dArea cfg feed).cf := le_max_left _ _

lemma hrroResolve_rec_mem (dArea : ℚ) (cfg : HRROConfigM) (feed : FeedInputM) :
    0 ≤ (hrroResolve dArea cfg feed).ccro_rec ∧ (hrroResolve dArea cfg feed).ccro_rec ≤ 100 :=
  ⟨le_clampQ _ _ _, clampQ_le _ _ _ (by norm_num)⟩

/-- The Excel baseline's `q` equals the resolved `qf_total` (the outer
`max(1e-9, .)` of `compute_excel` is idempotent over the resolve step). -/
lemma hrroResolve_q_eq (dArea : ℚ) (cfg : HRROConfigM) (feed : FeedInputM) :
    max (1/10^9) (hrroResolve dArea cfg feed).qf_total =
      (hrroResolve dArea cfg feed).qf_total :=
  max_eq_right (le_max_left _ _)

lemma hrroResolve_qp_eq (dArea : ℚ) (cfg : HRROConfigM) (feed : FeedInputM) :
    (hrroResolve dArea cfg feed).qp_excel =
      (hrroResolve dArea cfg feed).qf_total * (hrroResolve dArea cfg feed).ccro_rec / 100 := by
  unfold hrroResolve
  dsimp only
  unfold computeExcel
  dsimp only
  rw [max_eq_right (le_max_left _ _), clampQ_idem _ _ _ (by norm_num)]

lemma hrroResolve_qc_eq (dArea : ℚ) (cfg : HRROConfigM) (feed : FeedInputM) :
    (hrroResolve dArea cfg feed).qc_excel =
      (hrroResolve dArea cfg feed).qf_total - (hrroResolve dArea cfg feed).qp_excel := by
  unfold hrroResolve
  dsimp only
  unfold computeExcel
  dsimp only
  rw [max_eq_right (le_max_left _ _), clampQ_idem _ _ _ (by norm_num)]

lemma hrroResolve_qp_nonneg (dArea : ℚ) (cfg : HRROConfigM) (feed : FeedInputM) :
    0 ≤ (hrroResolve dArea cfg feed).qp_excel := by
  rw [hrroResolve_qp_eq]
  have h1 := hrroResolve_qf_pos dArea cfg feed
  have h2 := (hrroResolve_rec_mem dArea cfg feed).1
  positivity

lemma hrroResolve_qp_le (dArea : ℚ) (cfg : HRROConfigM) (feed : FeedInputM) :
    (hrroResolve dArea cfg feed).qp_excel ≤ (hrroResolve dArea cfg feed).qf_total := by
  rw [hrroResolve_qp_eq]
  have h1 := hrroResolve_qf_pos dArea cfg feed
  have h2 := (hrroResolve_rec_mem dArea cfg feed).2
  nlinarith

lemma hrroResolve_qc_nonneg (dArea : ℚ) (cfg : HRROConfigM) (feed : FeedInputM) :
    0 ≤ (hrroResolve dArea cfg feed).qc_excel := by
  rw [hrroResolve_qc_eq]
  have := hrroResolve_qp_le dArea cfg feed
  linarith

/-- Flow conservation of the HRRO excel_only metric: exact, with no
hypothesis at all. -/
lemma hrroExcelOnly_flow (dArea : ℚ) (cfg : HRROConfigM) (feed : FeedInputM) (avg_sec : ℚ) :
    (hrroExcelOnlyMetric (hrroResolve dArea cfg feed) cfg avg_sec).Qp +
      (hrroExcelOnlyMetric (hrroResolve dArea cfg feed) cfg avg_sec).Qc =
      (hrroExcelOnlyMetric (hrroResolve dArea cfg feed) cfg avg_sec).Qf := by
  show (hrroResolve dArea cfg feed).qp_excel + (hrroResolve dArea cfg feed).qc_excel =
    (hrroResolve dArea cfg feed).qf_total
  rw [hrroResolve_qc_eq]
  ring

/-- Flow conservation of the HRRO excel_physics metric: exact for every axial
solver outcome, including when the 0.999-recovery permeate clamp engages. -/
lemma hrroPhysics_flow (dArea : ℚ) (cfg : HRROConfigM) (feed : FeedInputM)
    (p_in_used avg_sec : ℚ) :
    (hrroPhysicsMetric (hrroResolve dArea cfg feed) cfg p_in_used avg_sec).Qp +
      (hrroPhysicsMetric (hrroResolve dArea cfg feed) cfg p_in_used avg_sec).Qc =
      (hrroPhysicsMetric (hrroResolve dArea cfg feed) cfg p_in_used avg_sec).Qf := by
  have hqf := hrroResolve_qf_pos dArea cfg feed
  have hqp0 := hrroResolve_qp_nonneg dArea cfg feed
  have hqc0 := hrroResolve_qc_nonneg dArea cfg feed
  have hsum : (hrroResolve dArea cfg feed).qp_excel + (hrroResolve dArea cfg feed).qc_excel =
      (hrroResolve dArea cfg feed).qf_total := by
    rw [hrroResolve_qc_eq]; ring
  unfold hrroPhysicsMetric
  dsimp only
  cases hfl : cfg.flux_lmh with
  | none =>
      simp only [hfl]
      rw [max_eq_right hqp0, max_eq_right hqc0]
      exact hsum
  | some v =>
      simp only [hfl]
      rw [max_eq_left (le_of_lt hqf)]
      split_ifs with h
      · exact balance_split _ _ (by nlinarith)
      · exact balance_split _ _ (by nlinarith [le_of_not_lt h])

/-- Salt conservation of the HRRO excel_only metric in the default
(`min_model`) Cp mode with non-degenerate concentrate flow. -/
lemma hrroExcelOnly_salt (dArea : ℚ) (cfg : HRROConfigM) (feed : FeedInputM) (avg_sec : ℚ)
    (hmode : cfg.hrro_excel_only_cp_mode = none)
    (hqc : 1/10^12 < (hrroResolve dArea cfg feed).qc_excel) :
    (hrroExcelOnlyMetric (hrroResolve dArea cfg feed) cfg avg_sec).Qp *
      (hrroExcelOnlyMetric (hrroResolve dArea cfg feed) cfg avg_sec).Cp +
      (hrroExcelOnlyMetric (hrroResolve dArea cfg feed) cfg avg_sec).Qc *
      (hrroExcelOnlyMetric (hrroResolve dArea cfg feed) cfg avg_sec).Cc =
      (hrroExcelOnlyMetric (hrroResolve dArea cfg feed) cfg avg_sec).Qf *
      (hrroExcelOnlyMetric (hrroResolve dArea cfg feed) cfg avg_sec).Cf := by
  have hqf := hrroResolve_qf_pos dArea cfg feed
  have hcf := hrroResolve_cf_nonneg dArea cfg feed
  have hqp0 := hrroResolve_qp_nonneg dArea cfg feed
  have hqple := hrroResolve_qp_le dArea cfg feed
  have hqc0 := hrroResolve_qc_nonneg dArea cfg feed
  unfold hrroExcelOnlyMetric
  dsimp only
  rw [hmode]
  unfold excelOnlyCpCc
  dsimp only
  have hmm : pyNormS "min_model" = "min_model" := by decide
  rw [hmm]
  rw [if_neg (by decide : ¬ ("min_model" : String) = "none")]
  dsimp only
  rw [max_eq_right hcf, max_eq_right (le_of_lt hqf), max_eq_right hqp0, max_eq_right hqc0]
  rw [if_pos hqc]
  set rej := (if ("min_model" : String) = "fixed_rejection" then
    clampQ (fDef cfg.hrro_excel_only_fixed_rejection_pct 99.5) 0 100
    else
      match cfg.hrro_excel_only_min_model_rejection_pct with
      | some v => clampQ v 0 100
      | none => clampQ (fDef cfg.membrane_salt_rejection_pct 99.63) 0 100) with hrej
  have hrej0 : 0 ≤ rej := by
    rw [hrej]
    split_ifs
    · exact le_clampQ _ _ _
    · cases cfg.hrro_excel_only_min_model_rejection_pct with
      | none => exact le_clampQ _ _ _
      | some v => exact le_clampQ _ _ _
  have hrej100 : rej ≤ 100 := by
    rw [hrej]
    split_ifs
    · exact clampQ_le _ _ _ (by norm_num)
    · cases cfg.hrro_excel_only_min_model_rejection_pct with
      | none => exact clampQ_le _ _ _ (by norm_num)
      | some v => exact clampQ_le _ _ _ (by norm_num)
  rw [pyOrZero_some, pyOrZero_some]
  have hcp0 : 0 ≤ (hrroResolve dArea cfg feed).cf * (1 - rej / 100) := by nlinarith
  have hcple : (hrroResolve dArea cfg feed).cf * (1 - rej / 100) ≤
      (hrroResolve dArea cfg feed).cf := by nlinarith
  have hnum : 0 ≤ (hrroResolve dArea cfg feed).qf_total * (hrroResolve dArea cfg feed).cf -
      (hrroResolve dArea cfg feed).qp_excel *
      ((hrroResolve dArea cfg feed).cf * (1 - rej / 100)) := by nlinarith
  rw [max_eq_right hnum]
  have key : ∀ a b c : ℚ, c ≠ 0 → a + c * ((b - a) / c) = b := by
    intro a b c hc
    field_simp
  exact key _ _ _ (by positivity)

-- =========================================================================
-- Water chemistry lemmas
-- =========================================================================

lemma optMap_one (v : Option ℚ) : v.map (· * (1:ℚ)) = v := by
  cases v <;> simp

/-- Rescaling a profile to its own TDS is the identity when the TDS clears
the 1e-6 floor (the "deep copy" role the source comments rely on). -/
lemma scaleProfileForTds_self (p : ChemistryProfile) (h : 1/10^6 ≤ p.tds_mgL) :
    scaleProfileForTds p p.tds_mgL = p := by
  have h0 : (0:ℚ) < p.tds_mgL := lt_of_lt_of_le (by norm_num) h
  have hf : p.tds_mgL / max p.tds_mgL (1/10^6) = 1 := by
    rw [max_eq_left h]
    exact div_self (ne_of_gt h0)
  unfold scaleProfileForTds
  dsimp only
  rw [hf]
  cases p
  simp only [optMap_one]

lemma getMeq_of_nonneg (v : Option ℚ) (mw k : ℚ) (h : 0 ≤ v.getD 0) :
    getMeq v mw k = v.getD 0 / mw * k := by
  cases v with
  | none => simp [getMeq]
  | some x =>
      simp only [getMeq, Option.getD_some] at h ⊢
      split_ifs with hx
      · have : x = 0 := le_antisymm hx h
        rw [this]
        ring
      · rfl

lemma getMeq_of_pos (x mw k : ℚ) (h : 0 < x) : getMeq (some x) mw k = x / mw * k := by
  simp only [getMeq]
  rw [if_neg (not_le.mpr h)]

/-- The record update performed by the Cl make-up branch leaves every cation
field unchanged. -/
lemma cationsMeq_cl_update (p : ChemistryProfile) (c t : ℚ) :
    cationsMeq { p with cl_mgL := some c, tds_mgL := t } = cationsMeq p := rfl

lemma anionsMeq_na_update (p : ChemistryProfile) (n t : ℚ) :
    anionsMeq { p with na_mgL := some n, tds_mgL := t } = anionsMeq p := rfl

lemma anionsMeq_cl_update (p : ChemistryProfile) (d t : ℚ)
    (hcl : 0 ≤ p.cl_mgL.getD 0) (hd : 0 < d) :
    anionsMeq { p with cl_mgL := some (p.cl_mgL.getD 0 + d * MW_CL / 1), tds_mgL := t } =
      anionsMeq p + d := by
  have hMW : (0:ℚ) < MW_CL := by norm_num [MW_CL]
  have hpos : 0 < p.cl_mgL.getD 0 + d * MW_CL / 1 := by nlinarith
  unfold anionsMeq
  dsimp only
  rw [getMeq_of_pos _ _ _ hpos, getMeq_of_nonneg p.cl_mgL MW_CL 1 hcl]
  have hMW0 : MW_CL ≠ 0 := ne_of_gt hMW
  field_simp
  ring

lemma cationsMeq_na_update (p : ChemistryProfile) (d t : ℚ)
    (hna : 0 ≤ p.na_mgL.getD 0) (hd : 0 < d) :
    cationsMeq { p with na_mgL := some (p.na_mgL.getD 0 + d * MW_NA / 1), tds_mgL := t } =
      cationsMeq p + d := by
  have hMW : (0:ℚ) < MW_NA := by norm_num [MW_NA]
  have hpos : 0 < p.na_mgL.getD 0 + d * MW_NA / 1 := by nlinarith
  unfold cationsMeq
  dsimp only
  rw [getMeq_of_pos _ _ _ hpos, getMeq_of_nonneg p.na_mgL MW_NA 1 hna]
  have hMW0 : MW_NA ≠ 0 := ne_of_gt hMW
  field_simp
  ring

/-- `apply_balance_makeup` is idempotent for profiles whose TDS clears the
copy-step floor and whose Na/Cl entries are non-negative. -/
lemma makeup_idem (p : ChemistryProfile) (htds : 1/10^6 ≤ p.tds_mgL)
    (hna : 0 ≤ p.na_mgL.getD 0) (hcl : 0 ≤ p.cl_mgL.getD 0) :
    applyBalanceMakeup (applyBalanceMakeup p) = applyBalanceMakeup p := by
  by_cases hb : |cationsMeq p - anionsMeq p| < 1/10^4 ∨ (cationsMeq p = 0 ∧ anionsMeq p = 0)
  · have h1 : applyBalanceMakeup p = p := by
      unfold applyBalanceMakeup
      rw [if_pos hb]
    rw [h1, h1]
  · have hdiff : 1/10^4 ≤ |cationsMeq p - anionsMeq p| := by
      push_neg at hb
      exact hb.1
    have hscale := scaleProfileForTds_self p htds
    by_cases hc : anionsMeq p < cationsMeq p
    · have hd : 0 < cationsMeq p - anionsMeq p := sub_pos.mpr hc
      have hq : applyBalanceMakeup p = { p with
          cl_mgL := some (p.cl_mgL.getD 0 + (cationsMeq p - anionsMeq p) * MW_CL / 1),
          tds_mgL := p.tds_mgL + (cationsMeq p - anionsMeq p) * MW_CL / 1 } := by
        unfold applyBalanceMakeup
        rw [if_neg hb]
        dsimp only
        rw [hscale, if_pos hc]
      rw [hq]
      have hc2 := cationsMeq_cl_update p
        (p.cl_mgL.getD 0 + (cationsMeq p - anionsMeq p) * MW_CL / 1)
        (p.tds_mgL + (cationsMeq p - anionsMeq p) * MW_CL / 1)
      have ha2 := anionsMeq_cl_update p (cationsMeq p - anionsMeq p)
        (p.tds_mgL + (cationsMeq p - anionsMeq p) * MW_CL / 1) hcl hd
      unfold applyBalanceMakeup
      rw [if_pos]
      left
      rw [hc2, ha2]
      have hz : cationsMeq p - (anionsMeq p + (cationsMeq p - anionsMeq p)) = 0 := by ring
      rw [hz]
      norm_num
    · have hc' : cationsMeq p < anionsMeq p := by
        rcases lt_or_eq_of_le (le_of_not_lt hc) with h | h
        · exact h
        · exfalso
          rw [h] at hdiff
          simp at hdiff
          linarith [hdiff]
      have hd : 0 < anionsMeq p - cationsMeq p := sub_pos.mpr hc'
      have hq : applyBalanceMakeup p = { p with
          na_mgL := some (p.na_mgL.getD 0 + (anionsMeq p - cationsMeq p) * MW_NA / 1),
          tds_mgL := p.tds_mgL + (anionsMeq p - cationsMeq p) * MW_NA / 1 } := by
        unfold applyBalanceMakeup
        rw [if_neg hb]
        dsimp only
        rw [hscale, if_neg hc]
      rw [hq]
      have ha2 := anionsMeq_na_update p
        (p.na_mgL.getD 0 + (anionsMeq p - cationsMeq p) * MW_NA / 1)
        (p.tds_mgL + (anionsMeq p - cationsMeq p) * MW_NA / 1)
      have hc2 := cationsMeq_na_update p (anionsMeq p - cationsMeq p)
        (p.tds_mgL + (anionsMeq p - cationsMeq p) * MW_NA / 1) hna hd
      unfold applyBalanceMakeup
      rw [if_pos]
      left
      rw [hc2, ha2]
      have hz : cationsMeq p + (anionsMeq p - cationsMeq p) - anionsMeq p = 0 := by ring
      rw [hz]
      norm_num

-- =========================================================================
-- Concrete inputs for counterexamples and witnesses
-- =========================================================================

/-- Fixed executable rational stand-in for `10 ** x`; used only on outputs
that do not depend on the oracle's values. -/
def pow10Model (x : ℚ) : ℚ := 1 + x

/-- An all-defaults RO stage config. -/
def roCfgDft : ROConfigM := {}

/-- An RO config with 5 bar applied pressure, everything else defaulted. -/
def roCfgP5 : ROConfigM := { pressure_bar := some 5 }

/-- An RO config with 10 bar applied pressure, everything else defaulted. -/
def roCfgP10 : ROConfigM := { pressure_bar := some 10 }

/-- A seawater-strength feed: 100 m3/h at 35 g/L and 25 C. -/
def roFeedSea : FeedInputM := ⟨100, 35000, 25, 7, 0, none⟩

/-- A standard brackish feed: 100 m3/h at 2 g/L and 25 C. -/
def roFeedStd : FeedInputM := ⟨100, 2000, 25, 7, 0, none⟩

/-- A 100 m3/h feed with zero TDS (keeps the NF loop exactly stationary). -/
def nfFeedZeroTds : FeedInputM := ⟨100, 0, 25, 7, 0, none⟩

/-- An all-defaults NF stage config. -/
def nfCfgDft : NFConfigM := {}

/-- An all-defaults MF stage config. -/
def mfCfgDft : MFConfigM := {}

/-- An all-defaults UF stage config. -/
def ufCfgDft : UFConfigM := {}

/-- A tiny 0.1 m3/h feed: backwash losses then exceed gross production. -/
def ufFeedTiny : FeedInputM := ⟨1/10, 1000, 25, 7, 0, none⟩

/-- A comfortable 100 m3/h UF feed. -/
def ufFeedBig : FeedInputM := ⟨100, 1000, 25, 7, 0, none⟩

/-- An all-defaults HRRO stage config (excel_only engine). -/
def hrroCfgDft : HRROConfigM := {}

/-- An HRRO config running the excel_physics engine. -/
def hrroCfgPhys : HRROConfigM := { hrro_engine := some "excel_physics" }

/-- A standard 100 m3/h, 1 g/L HRRO feed. -/
def hrroFeedStd : FeedInputM := ⟨100, 1000, 25, 7, 0, none⟩

/-- A request feed carrying an unbalanced ion block (Na only). -/
def feedWithIons : FeedInputM := ⟨100, 50, 25, 7, 0, some { Na := some 100 }⟩

/-- A zero-TDS, Na-only chemistry profile (degenerate copy-step input). -/
def chemZeroTds : ChemistryProfile := { tds_mgL := 0, temperature_C := 25, ph := 7, na_mgL := some 100 }

/-- An unbalanced profile with a healthy TDS. -/
def chemStd : ChemistryProfile := { tds_mgL := 100, temperature_C := 25, ph := 7, na_mgL := some 100 }

/-- A checks dict whose average flux is 30 LMH and everything else absent. -/
def cksAvg30 : GLChecks := ⟨some 30, none, none, none, none, none, none, none⟩

-- =========================================================================
-- Claim theorems
-- =========================================================================

/-- C1 (amended): flow conservation `Qf = Qp + Qc` holds exactly on the
unrounded stream values of the RO solver (for `Qf > 2e-11`, so the 1e-12
concentrate floor is inactive — including when the permeate cap fires), the
NF solver (for `Qf > 0`), the MF solver (for `Qf > 0`), and both HRRO
assemblies unconditionally (including the 0.999-recovery permeate clamp).
For UF it holds exactly only when neither production clamp engages
(forward-flush loss at most the strained feed, backwash loss at most gross
production); when the UF net-production clamp to zero engages, Qp + Qc
overshoots Qf and the 1e-3 bound fails (see the counterexample). -/
theorem C1_flow_conservation :
    (∀ (expO : ℚ → ℚ) (cfg : ROConfigM) (feed : FeedInputM), 2e-11 < feed.flow_m3h →
      (roCompute expO cfg feed).streams.perm_flow + (roCompute expO cfg feed).streams.conc_flow =
        (roCompute expO cfg feed).streams.feed_flow) ∧
    (∀ (expO : ℚ → ℚ) (cfg : NFConfigM) (feed : FeedInputM), 0 < feed.flow_m3h →
      (nfCompute expO cfg feed).streams.perm_flow + (nfCompute expO cfg feed).streams.conc_flow =
        (nfCompute expO cfg feed).streams.feed_flow) ∧
    (∀ (cfg : MFConfigM) (feed : FeedInputM), 0 < feed.flow_m3h →
      (mfCompute cfg feed).streams.perm_flow + (mfCompute cfg feed).streams.conc_flow =
        (mfCompute cfg feed).streams.feed_flow) ∧
    (∀ (pow10O : ℚ → ℚ) (cfg : UFConfigM) (feed : FeedInputM),
      (ufFlows cfg feed).avg_ff_loss ≤ (ufFlows cfg feed).uf_feed_in →
      (ufFlows cfg feed).avg_bw_loss ≤ (ufFlows cfg feed).avg_gross_prod →
      (ufCompute pow10O cfg feed).streams.perm_flow + (ufCompute pow10O cfg feed).streams.conc_flow =
        (ufCompute pow10O cfg feed).streams.feed_flow) ∧
    (∀ (dArea : ℚ) (cfg : HRROConfigM) (feed : FeedInputM) (avg_sec : ℚ),
      (hrroExcelOnlyMetric (hrroResolve dArea cfg feed) cfg avg_sec).Qp +
        (hrroExcelOnlyMetric (hrroResolve dArea cfg feed) cfg avg_sec).Qc =
        (hrroExcelOnlyMetric (hrroResolve dArea cfg feed) cfg avg_sec).Qf) ∧
    (∀ (dArea : ℚ) (cfg : HRROConfigM) (feed : FeedInputM) (p_in_used avg_sec : ℚ),
      (hrroPhysicsMetric (hrroResolve dArea cfg feed) cfg p_in_used avg_sec).Qp +
        (hrroPhysicsMetric (hrroResolve dArea cfg feed) cfg p_in_used avg_sec).Qc =
        (hrroPhysicsMetric (hrroResolve dArea cfg feed) cfg p_in_used avg_sec).Qf) :=
  ⟨roCompute_flow, nfCompute_flow, mfCompute_flow, ufCompute_flow,
   hrroExcelOnly_flow, hrroPhysics_flow⟩

unseal Rat.add Rat.mul Rat.inv Rat.sub Rat.ofScientific in
/-- C1 counterexample: a 0.1 m3/h feed through an all-defaults UF stage
engages the net-production clamp; the reported metric has Qp = 0 yet a full
backwash/flush waste stream, so the relative flow-closure error is about
0.475, far above 1e-3, with Qf > 0. -/
theorem C1_counterexample :
    0 < ufFeedTiny.flow_m3h ∧
    ¬ (|(ufCompute pow10Model ufCfgDft ufFeedTiny).Qf -
        ((ufCompute pow10Model ufCfgDft ufFeedTiny).Qp +
          (ufCompute pow10Model ufCfgDft ufFeedTiny).Qc)| /
        (ufCompute pow10Model ufCfgDft ufFeedTiny).Qf < 1e-3) := by
  decide

unseal Rat.add Rat.mul Rat.inv Rat.sub Rat.ofScientific in
/-- C1 witness: each conjunct of the amended claim instantiated at a
concrete stage and feed, with every hypothesis discharged by evaluation. -/
theorem C1_witness :
    ((roCompute expModel roCfgDft roFeedStd).streams.perm_flow +
      (roCompute expModel roCfgDft roFeedStd).streams.conc_flow =
      (roCompute expModel roCfgDft roFeedStd).streams.feed_flow) ∧
    ((nfCompute expModel nfCfgDft roFeedStd).streams.perm_flow +
      (nfCompute expModel nfCfgDft roFeedStd).streams.conc_flow =
      (nfCompute expModel nfCfgDft roFeedStd).streams.feed_flow) ∧
    ((mfCompute mfCfgDft roFeedStd).streams.perm_flow +
      (mfCompute mfCfgDft roFeedStd).streams.conc_flow =
      (mfCompute mfCfgDft roFeedStd).streams.feed_flow) ∧
    ((ufCompute pow10Model ufCfgDft ufFeedBig).streams.perm_flow +
      (ufCompute pow10Model ufCfgDft ufFeedBig).streams.conc_flow =
      (ufCompute pow10Model ufCfgDft ufFeedBig).streams.feed_flow) ∧
    ((hrroExcelOnlyMetric (hrroResolve 37 hrroCfgDft hrroFeedStd) hrroCfgDft 0).Qp +
      (hrroExcelOnlyMetric (hrroResolve 37 hrroCfgDft hrroFeedStd) hrroCfgDft 0).Qc =
      (hrroExcelOnlyMetric (hrroResolve 37 hrroCfgDft hrroFeedStd) hrroCfgDft 0).Qf) ∧
    ((hrroPhysicsMetric (hrroResolve 37 hrroCfgDft hrroFeedStd) hrroCfgDft 0 0).Qp +
      (hrroPhysicsMetric (hrroResolve 37 hrroCfgDft hrroFeedStd) hrroCfgDft 0 0).Qc =
      (hrroPhysicsMetric (hrroResolve 37 hrroCfgDft hrroFeedStd) hrroCfgDft 0 0).Qf) := by
  obtain ⟨h1, h2, h3, h4, h5, h6⟩ := C1_flow_conservation
  exact ⟨h1 expModel roCfgDft roFeedStd (by norm_num [roFeedStd]),
    h2 expModel nfCfgDft roFeedStd (by norm_num [roFeedStd]),
    h3 mfCfgDft roFeedStd (by norm_num [roFeedStd]),
    h4 pow10Model ufCfgDft ufFeedBig (by decide) (by decide),
    h5 37 hrroCfgDft hrroFeedStd 0,
    h6 37 hrroCfgDft hrroFeedStd 0 0⟩

/-- C2 (amended): salt conservation `Qf Cf = Qp Cp + Qc Cc` holds exactly on
the unrounded stream values of the RO solver (`Qf > 2e-11`, `Cf > 0`), the
NF solver (additionally requiring the concentrate-TDS floor inactive), the
MF solver and the UF solver (TDS passes through, so it reduces to flow
conservation under the no-clamp hypotheses), and the HRRO excel_only metric
in the default rejection-based Cp mode with non-degenerate concentrate.  The
HRRO excel_physics metric instead reports the literal constants Cp = Cc = 0,
so its salt balance fails whenever Cf > 0 (see the counterexample). -/
theorem C2_salt_conservation :
    (∀ (expO : ℚ → ℚ) (cfg : ROConfigM) (feed : FeedInputM),
      2e-11 < feed.flow_m3h → 0 < feed.tds_mgL →
      (roCompute expO cfg feed).streams.perm_flow * (roCompute expO cfg feed).streams.perm_tds +
        (roCompute expO cfg feed).streams.conc_flow * (roCompute expO cfg feed).streams.conc_tds =
        (roCompute expO cfg feed).streams.feed_flow * (roCompute expO cfg feed).streams.feed_tds) ∧
    (∀ (expO : ℚ → ℚ) (cfg : NFConfigM) (feed : FeedInputM), 2e-11 < feed.flow_m3h →
      (nfCompute expO cfg feed).streams.perm_flow * (nfCompute expO cfg feed).streams.perm_tds ≤
        feed.flow_m3h * feed.tds_mgL →
      (nfCompute expO cfg feed).streams.perm_flow * (nfCompute expO cfg feed).streams.perm_tds +
        (nfCompute expO cfg feed).streams.conc_flow * (nfCompute expO cfg feed).streams.conc_tds =
        (nfCompute expO cfg feed).streams.feed_flow * (nfCompute expO cfg feed).streams.feed_tds) ∧
    (∀ (cfg : MFConfigM) (feed : FeedInputM), 0 < feed.flow_m3h →
      (mfCompute cfg feed).streams.perm_flow * (mfCompute cfg feed).streams.perm_tds +
        (mfCompute cfg feed).streams.conc_flow * (mfCompute cfg feed).streams.conc_tds =
        (mfCompute cfg feed).streams.feed_flow * (mfCompute cfg feed).streams.feed_tds) ∧
    (∀ (pow10O : ℚ → ℚ) (cfg : UFConfigM) (feed : FeedInputM),
      (ufFlows cfg feed).avg_ff_loss ≤ (ufFlows cfg feed).uf_feed_in →
      (ufFlows cfg feed).avg_bw_loss ≤ (ufFlows cfg feed).avg_gross_prod →
      (ufCompute pow10O cfg feed).streams.perm_flow * (ufCompute pow10O cfg feed).streams.perm_tds +
        (ufCompute pow10O cfg feed).streams.conc_flow * (ufCompute pow10O cfg feed).streams.conc_tds =
        (ufCompute pow10O cfg feed).streams.feed_flow * (ufCompute pow10O cfg feed).streams.feed_tds) ∧
    (∀ (dArea : ℚ) (cfg : HRROConfigM) (feed : FeedInputM) (avg_sec : ℚ),
      cfg.hrro_excel_only_cp_mode = none →
      1/10^12 < (hrroResolve dArea cfg feed).qc_excel →
      (hrroExcelOnlyMetric (hrroResolve dArea cfg feed) cfg avg_sec).Qp *
        (hrroExcelOnlyMetric (hrroResolve dArea cfg feed) cfg avg_sec).Cp +
        (hrroExcelOnlyMetric (hrroResolve dArea cfg feed) cfg avg_sec).Qc *
        (hrroExcelOnlyMetric (hrroResolve dArea cfg feed) cfg avg_sec).Cc =
        (hrroExcelOnlyMetric (hrroResolve dArea cfg feed) cfg avg_sec).Qf *
        (hrroExcelOnlyMetric (hrroResolve dArea cfg feed) cfg avg_sec).Cf) ∧
    (∀ (dArea : ℚ) (cfg : HRROConfigM) (feed : FeedInputM) (p_in_used avg_sec : ℚ),
      (hrroPhysicsMetric (hrroResolve dArea cfg feed) cfg p_in_used avg_sec).Cp = 0 ∧
      (hrroPhysicsMetric (hrroResolve dArea cfg feed) cfg p_in_used avg_sec).Cc = 0) :=
  ⟨roCompute_salt, nfCompute_salt, mfCompute_salt, ufCompute_salt,
   hrroExcelOnly_salt, fun _ _ _ _ _ => ⟨rfl, rfl⟩⟩

unseal Rat.add Rat.mul Rat.inv Rat.sub Rat.ofScientific in
/-- C2 counterexample: an HRRO stage in excel_physics mode at 100 m3/h and
1000 mg/L reports Cp = Cc = 0, so the relative salt-closure error is 1,
violating the 1e-3 bound claimed for excel_physics mode. -/
theorem C2_counterexample :
    (hrroResolve 37 hrroCfgPhys hrroFeedStd).engine_mode = "excel_physics" ∧
    0 < (hrroPhysicsMetric (hrroResolve 37 hrroCfgPhys hrroFeedStd) hrroCfgPhys 0 0).Qf *
      (hrroPhysicsMetric (hrroResolve 37 hrroCfgPhys hrroFeedStd) hrroCfgPhys 0 0).Cf ∧
    ¬ (|(hrroPhysicsMetric (hrroResolve 37 hrroCfgPhys hrroFeedStd) hrroCfgPhys 0 0).Qf *
        (hrroPhysicsMetric (hrroResolve 37 hrroCfgPhys hrroFeedStd) hrroCfgPhys 0 0).Cf -
        ((hrroPhysicsMetric (hrroResolve 37 hrroCfgPhys hrroFeedStd) hrroCfgPhys 0 0).Qp *
          (hrroPhysicsMetric (hrroResolve 37 hrroCfgPhys hrroFeedStd) hrroCfgPhys 0 0).Cp +
          (hrroPhysicsMetric (hrroResolve 37 hrroCfgPhys hrroFeedStd) hrroCfgPhys 0 0).Qc *
          (hrroPhysicsMetric (hrroResolve 37 hrroCfgPhys hrroFeedStd) hrroCfgPhys 0 0).Cc)| /
        ((hrroPhysicsMetric (hrroResolve 37 hrroCfgPhys hrroFeedStd) hrroCfgPhys 0 0).Qf *
          (hrroPhysicsMetric (hrroResolve 37 hrroCfgPhys hrroFeedStd) hrroCfgPhys 0 0).Cf) <
        1e-3) := by
  decide

set_option maxRecDepth 100000 in
unseal Rat.add Rat.mul Rat.inv Rat.sub Rat.ofScientific in
/-- C2 witness: each conjunct of the amended claim instantiated concretely. -/
theorem C2_witness :
    ((roCompute expModel roCfgDft roFeedStd).streams.perm_flow *
      (roCompute expModel roCfgDft roFeedStd).streams.perm_tds +
      (roCompute expModel roCfgDft roFeedStd).streams.conc_flow *
      (roCompute expModel roCfgDft roFeedStd).streams.conc_tds =
      (roCompute expModel roCfgDft roFeedStd).streams.feed_flow *
      (roCompute expModel roCfgDft roFeedStd).streams.feed_tds) ∧
    ((nfCompute expModel nfCfgDft nfFeedZeroTds).streams.perm_flow *
      (nfCompute expModel nfCfgDft nfFeedZeroTds).streams.perm_tds +
      (nfCompute expModel nfCfgDft nfFeedZeroTds).streams.conc_flow *
      (nfCompute expModel nfCfgDft nfFeedZeroTds).streams.conc_tds =
      (nfCompute expModel nfCfgDft nfFeedZeroTds).streams.feed_flow *
      (nfCompute expModel nfCfgDft nfFeedZeroTds).streams.feed_tds) ∧
    ((hrroExcelOnlyMetric (hrroResolve 37 hrroCfgDft hrroFeedStd) hrroCfgDft 0).Qp *
      (hrroExcelOnlyMetric (hrroResolve 37 hrroCfgDft hrroFeedStd) hrroCfgDft 0).Cp +
      (hrroExcelOnlyMetric (hrroResolve 37 hrroCfgDft hrroFeedStd) hrroCfgDft 0).Qc *
      (hrroExcelOnlyMetric (hrroResolve 37 hrroCfgDft hrroFeedStd) hrroCfgDft 0).Cc =
      (hrroExcelOnlyMetric (hrroResolve 37 hrroCfgDft hrroFeedStd) hrroCfgDft 0).Qf *
      (hrroExcelOnlyMetric (hrroResolve 37 hrroCfgDft hrroFeedStd) hrroCfgDft 0).Cf) := by
  obtain ⟨h1, h2, -, -, h5, -⟩ := C2_salt_conservation
  exact ⟨h1 expModel roCfgDft roFeedStd (by norm_num [roFeedStd]) (by norm_num [roFeedStd]),
    h2 expModel nfCfgDft nfFeedZeroTds (by norm_num [nfFeedZeroTds]) (by decide),
    h5 37 hrroCfgDft hrroFeedStd 0 rfl (by decide)⟩

unseal Rat.add Rat.mul Rat.inv Rat.sub Rat.ofScientific in
/-- C3: the HRRO deterministic baseline at q_raw = 100 m3/h, recovery 80 %,
2 vessels x 6 elements x 37 m2 returns Qp = 80 m3/h, Qc = 20 m3/h and a
flux that rounds to 180.18 LMH at two decimals. -/
theorem C3_hrro_baseline_values :
    (computeExcel ⟨100, 80, 110, 10, 0, 2, 6, 37⟩).ccro_qp_m3h = 80 ∧
    (computeExcel ⟨100, 80, 110, 10, 0, 2, 6, 37⟩).ccro_qc_m3h = 20 ∧
    pyRound 2 (computeExcel ⟨100, 80, 110, 10, 0, 2, 6, 37⟩).ccro_flux_lmh = 180.18 := by
  decide

/-- C4 (amended): the converged RO flux is not strictly increasing in the
applied pressure across all cap-inactive pairs.  Whenever the effective
driving pressure stays at or below the feed's bulk osmotic pressure, the NDP
clamp pins the reported flux and permeate flow at zero for every exp oracle,
so any two such pressures share flux 0 with the permeate cap inactive;
strict monotonicity can hold at most above the osmotic threshold. -/
theorem C4_flux_pressure (expO : ℚ → ℚ) (cfg : ROConfigM) (feed : FeedInputM)
    (hC : 0 < feed.tds_mgL)
    (hp : (roResolve cfg feed).deltaP ≤ osmoQ feed.tds_mgL feed.temperature_C) :
    (roCompute expO cfg feed).flux_lmh = 0 ∧ (roCompute expO cfg feed).Qp = 0 :=
  roCompute_flux_zero expO cfg feed hC hp

unseal Rat.add Rat.mul Rat.inv Rat.sub Rat.ofScientific in
/-- C4 counterexample: at a 35 g/L feed, applied pressures 5 bar and 10 bar
both yield converged flux 0 with zero permeate (cap inactive), so the
reported flux is not strictly increasing between them. -/
theorem C4_counterexample :
    roCfgP5.pressure_bar = some 5 ∧ roCfgP10.pressure_bar = some 10 ∧
    (roCompute expModel roCfgP5 roFeedSea).Qp = 0 ∧
    (roCompute expModel roCfgP10 roFeedSea).Qp = 0 ∧
    (roCompute expModel roCfgP5 roFeedSea).flux_lmh = 0 ∧
    (roCompute expModel roCfgP10 roFeedSea).flux_lmh = 0 ∧
    ¬ ((roCompute expModel roCfgP5 roFeedSea).flux_lmh <
        (roCompute expModel roCfgP10 roFeedSea).flux_lmh) := by
  have h5 := roCompute_flux_zero expModel roCfgP5 roFeedSea (by decide) (by decide)
  have h10 := roCompute_flux_zero expModel roCfgP10 roFeedSea (by decide) (by decide)
  refine ⟨rfl, rfl, h5.2, h10.2, h5.1, h10.1, ?_⟩
  rw [h5.1, h10.1]
  exact lt_irrefl 0

unseal Rat.add Rat.mul Rat.inv Rat.sub Rat.ofScientific in
/-- C4 witness: the amended claim applied at the concrete 5 bar seawater
stage, hypotheses discharged by evaluation. -/
theorem C4_witness :
    0 < roFeedSea.tds_mgL ∧
    (roResolve roCfgP5 roFeedSea).deltaP ≤ osmoQ roFeedSea.tds_mgL roFeedSea.temperature_C ∧
    (roCompute expModel roCfgP5 roFeedSea).flux_lmh = 0 ∧
    (roCompute expModel roCfgP5 roFeedSea).Qp = 0 := by
  have h := C4_flux_pressure expModel roCfgP5 roFeedSea (by decide) (by decide)
  exact ⟨by decide, by decide, h.1, h.2⟩

/-- C5 (amended): the RO pump power equals (feed flow x applied pressure)
/ 36 / pump efficiency only for feeds arriving at zero inlet pressure; in
general the stage bills only the added boost max(0, p_in - p_feed), and
switches to the ISBP efficiency when the inlet pressure is at least 5 bar.
The specific energy is power divided by permeate flow whenever the permeate
flow exceeds 1e-12. -/
theorem C5_ro_energy (Qf p_in : ℚ) (pe ie : Option ℚ) (qp : ℚ)
    (hQ : 0 < Qf) (hp : 0 < p_in) :
    roPowerKw Qf p_in 0 pe ie = Qf * p_in / 36 / clampQ (fDef pe 0.80) 0.2 0.95 ∧
    (1/10^12 < qp → roSec (roPowerKw Qf p_in 0 pe ie) qp = roPowerKw Qf p_in 0 pe ie / qp) := by
  have hb : max 0 (p_in - 0) = p_in := by
    rw [sub_zero, max_eq_right (le_of_lt hp)]
  constructor
  · unfold roPowerKw
    dsimp only
    rw [hb]
    rw [if_pos ⟨hQ, hp⟩, if_pos (by norm_num : (0:ℚ) < 5)]
  · intro hqp
    unfold roSec
    rw [if_pos hqp]

unseal Rat.add Rat.mul Rat.inv Rat.sub Rat.ofScientific in
/-- C5 counterexample: a feed arriving at 10 bar with 15 bar applied: the
code bills only the 5 bar boost (at ISBP efficiency), not the claimed
(feed flow x applied pressure)/36/pump efficiency. -/
theorem C5_counterexample :
    roPowerKw 100 15 10 none none ≠ (100:ℚ) * 15 / 36 / clampQ (fDef none 0.80) 0.2 0.95 ∧
    roPowerKw 100 15 10 none none =
      100 * (15 - 10) / 36 / clampQ (fDef none 80 / 100) 0.2 0.95 := by
  decide

/-- C5 witness: the amended claim at Qf = 100, p_in = 15, zero inlet
pressure and default efficiencies, with qp = 10. -/
theorem C5_witness :
    roPowerKw 100 15 0 none none = (100:ℚ) * 15 / 36 / clampQ (fDef none 0.80) 0.2 0.95 ∧
    roSec (roPowerKw 100 15 0 none none) 10 = roPowerKw 100 15 0 none none / 10 := by
  obtain ⟨ha, hb⟩ := C5_ro_energy 100 15 none none 10 (by norm_num) (by norm_num)
  exact ⟨ha, hb (by norm_num)⟩

/-- C6 (amended): `run` preserves the request feed's flow, temperature, pH
and pressure, and leaves the request entirely unchanged when the feed
carries no ion block; but when an ion block is present, the balanced TDS,
Na and Cl are written back into the request's feed, so the request is not
preserved in general (see the counterexample). -/
theorem C6_run_purity (feed : FeedInputM) :
    ((engineAdjustFeed feed).flow_m3h = feed.flow_m3h ∧
      (engineAdjustFeed feed).temperature_C = feed.temperature_C ∧
      (engineAdjustFeed feed).ph = feed.ph ∧
      (engineAdjustFeed feed).pressure_bar = feed.pressure_bar) ∧
    (feed.ions = none → engineAdjustFeed feed = feed) := by
  constructor
  · rcases hfi : feed.ions with - | io
    · simp [engineAdjustFeed, hfi]
    · simp [engineAdjustFeed, hfi]
  · intro h
    simp [engineAdjustFeed, h]

unseal Rat.add Rat.mul Rat.inv Rat.sub Rat.ofScientific in
/-- C6 counterexample: a request feed at 50 mg/L carrying only 100 mg/L of
sodium is mutated by the run's balance make-up (its TDS jumps to about
204 mg/L and chloride is written in), so the request is not equal to what
the caller passed. -/
theorem C6_counterexample :
    engineAdjustFeed feedWithIons ≠ feedWithIons ∧
    (engineAdjustFeed feedWithIons).tds_mgL ≠ feedWithIons.tds_mgL := by
  decide

/-- C6 witness: the amended claim at a concrete ion-free feed. -/
theorem C6_witness :
    roFeedStd.ions = none ∧ engineAdjustFeed roFeedStd = roFeedStd :=
  ⟨rfl, (C6_run_purity roFeedStd).2 rfl⟩

/-- C7 (amended): the orchestrator marks the run not balanced exactly when
the flow-closure error is at least 1 % or the salt-closure error is at
least 5 % in absolute value (the code uses strict `<` for balanced, so the
boundary cases 1 % and 5 % are flagged, unlike the spec's "exceeds");
the flag is carried in the KPI's mass-balance block and never fails the run. -/
theorem C7_balance_flag (qf cf qp cp qb cb : ℚ) :
    (calcMassBalance qf cf qp cp qb cb).is_balanced = false ↔
      (1 ≤ |flowErrPctQ qf qp qb| ∨ 5 ≤ |saltErrPctQ qf cf qp cp qb cb|) := by
  unfold calcMassBalance
  dsimp only
  rw [decide_eq_false_iff_not]
  constructor
  · intro h
    rcases not_and_or.mp h with h | h
    · exact Or.inl (not_lt.mp h)
    · exact Or.inr (not_lt.mp h)
  · intro h hcontra
    rcases h with h | h
    · exact absurd hcontra.1 (not_lt.mpr h)
    · exact absurd hcontra.2 (not_lt.mpr h)

unseal Rat.add Rat.mul Rat.inv Rat.sub Rat.ofScientific in
/-- C7 counterexample: at exactly 1 % flow error (qf = 100 against
qp = qb = 49.5) the code flags "not balanced" although neither error
strictly exceeds its threshold, refuting the claim's "exactly when ...
exceeds" reading. -/
theorem C7_counterexample :
    (calcMassBalance 100 1000 (99/2) 1000 (99/2) 1000).is_balanced = false ∧
    ¬ specNotBalanced 100 1000 (99/2) 1000 (99/2) 1000 := by
  refine ⟨by decide, ?_⟩
  unfold specNotBalanced
  decide

/-- C7 witness: the amended equivalence at a concrete unbalanced input. -/
theorem C7_witness :
    (calcMassBalance 100 1000 40 500 60 1000).is_balanced = false ↔
      (1 ≤ |flowErrPctQ 100 40 60| ∨ 5 ≤ |saltErrPctQ 100 1000 40 500 60 1000|) :=
  C7_balance_flag 100 1000 40 500 60 1000

unseal Rat.add Rat.mul Rat.inv Rat.sub Rat.ofScientific in
/-- C8: for every checks dict whose average flux is 30 LMH, the
"municipal Supply" 8-inch evaluation (allowed range 20-26 LMH) emits a
violation keyed "avg_flux_range". -/
theorem C8_guideline_trigger (checks : GLChecks) (h : checks.avg_flux_lmh = some 30) :
    (buildGuidelineViolations "municipal Supply" 8 checks).1.limits.avg_flux_range_lmh =
      some (20, 26) ∧
    ∃ v ∈ (buildGuidelineViolations "municipal Supply" 8 checks).2,
      v.key = "avg_flux_range" := by
  have hg : dictGet ((dictGet GUIDELINES "municipal Supply").getD []) 8 = some municipal8 := by
    decide
  unfold buildGuidelineViolations
  dsimp only
  rw [hg]
  dsimp only
  constructor
  · rfl
  · refine ⟨⟨"avg_flux_range", 30, "LMH"⟩, ?_, rfl⟩
    norm_num [municipal8, h, Option.getD_some, List.mem_append]

/-- C8 witness: the trigger at the concrete checks dict with 30 LMH. -/
theorem C8_witness :
    cksAvg30.avg_flux_lmh = some 30 ∧
    ∃ v ∈ (buildGuidelineViolations "municipal Supply" 8 cksAvg30).2,
      v.key = "avg_flux_range" :=
  ⟨rfl, (C8_guideline_trigger cksAvg30 rfl).2⟩

unseal Rat.add Rat.mul Rat.inv Rat.sub Rat.ofScientific in
/-- C10: an unknown profile name is evaluated exactly as "municipal Supply"
at the same element size, and the reported profile is "municipal Supply";
when the element size has no entry either (neither 4 nor 8 inch), the limit
set is empty and no violations are produced.  The checker is a total
function: it never raises and never reports the unknown profile. -/
theorem C10_guideline_fallback :
    (∀ (p : String) (inch : ℤ) (checks : GLChecks), dictGet GUIDELINES p = none →
      buildGuidelineViolations p inch checks =
        buildGuidelineViolations "municipal Supply" inch checks ∧
      (buildGuidelineViolations p inch checks).1.profile = "municipal Supply") ∧
    (∀ (p : String) (inch : ℤ) (checks : GLChecks),
      dictGet ((dictGet GUIDELINES p).getD []) inch = none → inch ≠ 4 → inch ≠ 8 →
      (buildGuidelineViolations p inch checks).2 = [] ∧
      (buildGuidelineViolations p inch checks).1.limits = emptyGL) := by
  constructor
  · intro p inch checks hp
    have h0 : dictGet ((dictGet GUIDELINES p).getD []) inch = none := by
      rw [hp]
      rfl
    constructor
    · unfold buildGuidelineViolations
      dsimp only
      rw [h0]
      cases hm : dictGet ((dictGet GUIDELINES "municipal Supply").getD []) inch with
      | none => rfl
      | some g => rfl
    · unfold buildGuidelineViolations
      dsimp only
      rw [h0]
      rfl
  · intro p inch checks hnone h4 h8
    have e8 : ((8:ℤ) == inch) = false := beq_eq_false_iff_ne.mpr (fun he => h8 he.symm)
    have e4 : ((4:ℤ) == inch) = false := beq_eq_false_iff_ne.mpr (fun he => h4 he.symm)
    have hmun : dictGet ((dictGet GUIDELINES "municipal Supply").getD []) inch = none := by
      have hl : (dictGet GUIDELINES "municipal Supply").getD [] =
          [(8, municipal8), (4, municipal4)] := by decide
      rw [hl]
      simp [dictGet, e8, e4]
    unfold buildGuidelineViolations
    dsimp only
    rw [hnone, hmun]
    exact ⟨rfl, rfl⟩

unseal Rat.add Rat.mul Rat.inv Rat.sub Rat.ofScientific in
/-- C10 witness: a profile name outside the table evaluated at 8 inch
matches the municipal evaluation, and at an unknown 9-inch size produces no
violations. -/
theorem C10_witness :
    dictGet GUIDELINES "Totally Unknown" = none ∧
    buildGuidelineViolations "Totally Unknown" 8 cksAvg30 =
      buildGuidelineViolations "municipal Supply" 8 cksAvg30 ∧
    (buildGuidelineViolations "Totally Unknown" 9 cksAvg30).2 = [] := by
  have hu : dictGet GUIDELINES "Totally Unknown" = none := by decide
  exact ⟨hu, (C10_guideline_fallback.1 "Totally Unknown" 8 cksAvg30 hu).1,
    (C10_guideline_fallback.2 "Totally Unknown" 9 cksAvg30 (by decide) (by decide) (by decide)).1⟩

/-- C9 (amended): the balance make-up is idempotent — applying it twice
returns exactly the once-corrected profile, in particular the same TDS —
for every profile whose TDS is at least the 1e-6 copy-step floor and whose
Na/Cl entries are non-negative, and an already-balanced profile (within
the 1e-4 meq tolerance) is returned unchanged.  A zero-TDS unbalanced
profile breaks idempotence because the copy step rescales every ion by
factor 0 (see the counterexample). -/
theorem C9_balance_idempotent (p : ChemistryProfile)
    (htds : 1/10^6 ≤ p.tds_mgL) (hna : 0 ≤ p.na_mgL.getD 0) (hcl : 0 ≤ p.cl_mgL.getD 0) :
    (applyBalanceMakeup (applyBalanceMakeup p)).tds_mgL = (applyBalanceMakeup p).tds_mgL ∧
    applyBalanceMakeup (applyBalanceMakeup p) = applyBalanceMakeup p ∧
    (|cationsMeq p - anionsMeq p| < 1/10^4 ∨ (cationsMeq p = 0 ∧ anionsMeq p = 0) →
      applyBalanceMakeup p = p) := by
  have h := makeup_idem p htds hna hcl
  refine ⟨by rw [h], h, fun hb => ?_⟩
  unfold applyBalanceMakeup
  rw [if_pos hb]

set_option maxRecDepth 100000 in
unseal Rat.add Rat.mul Rat.inv Rat.sub Rat.ofScientific in
/-- C9 counterexample: the zero-TDS, Na-only profile: the first make-up
zeroes the ions while adding chloride, so the second make-up adds sodium
again and the TDS after two applications differs from the TDS after one. -/
theorem C9_counterexample :
    (applyBalanceMakeup (applyBalanceMakeup chemZeroTds)).tds_mgL ≠
      (applyBalanceMakeup chemZeroTds).tds_mgL := by
  decide

unseal Rat.add Rat.mul Rat.inv Rat.sub Rat.ofScientific in
/-- C9 witness: the amended claim at a concrete unbalanced 100 mg/L
profile. -/
theorem C9_witness :
    (1:ℚ)/10^6 ≤ chemStd.tds_mgL ∧ 0 ≤ chemStd.na_mgL.getD 0 ∧ 0 ≤ chemStd.cl_mgL.getD 0 ∧
    applyBalanceMakeup (applyBalanceMakeup chemStd) = applyBalanceMakeup chemStd := by
  exact ⟨by decide, by decide, by decide,
    (C9_balance_idempotent chemStd (by decide) (by decide) (by decide)).2.1⟩
